import Mathlib

/-!
Verification development for the joulescope_driver upper-level device driver.

The definitions below are a shallow embedding of the C sources:
  * `include_private/mb/comm/frame.h` — frame constants, `mb_frame_length_check`,
    `mb_frame_link_check`;
  * `src/mb_device.c` — the framed-message codec (`msg_alloc_send_to_device`,
    `send_to_device`, `publish_to_device`, `handle_stream_in_frame`,
    `handle_in_pubsub`), the connection state machine tables and guards, and the
    js220 memory-operation coordinator (`mem_complete`, `handle_cmd_mem`);
  * `src/js110_sample_processor.c` — the js110 current-range sample processor.

Machine integers are modelled as `Nat` with explicit `% 2^w` / masking where the
C code truncates.  Byte buffers are `List Nat` of byte values.  Fallible
operations return `Option`.
-/

namespace JoulescopeDriver

/-! ### Frame constants (include_private/mb/comm/frame.h, src/mb_device.c) -/

def MB_FRAMER_SOF1 : Nat := 0x55
def MB_FRAMER_SOF2 : Nat := 0x00
def MB_FRAMER_SOF2_MASK : Nat := 0xF0
def MB_FRAMER_FRAME_ID_MAX : Nat := (1 <<< 11) - 1

def MB_FRAME_FT_DATA : Nat := 0x00
def MB_FRAME_FT_ACK_ALL : Nat := 0x0F
def MB_FRAME_FT_ACK_ONE : Nat := 0x17
def MB_FRAME_FT_NACK_FRAME_ID : Nat := 0x1B
def MB_FRAME_FT_RESERVED : Nat := 0x1D
def MB_FRAME_FT_CONTROL : Nat := 0x1E

def MB_FRAME_CTRL_RESET_REQ : Nat := 0x00
def MB_FRAME_CTRL_RESET_ACK : Nat := 0x01
def MB_FRAME_CTRL_DISCONNECT_REQ : Nat := 0x02
def MB_FRAME_CTRL_DISCONNECT_ACK : Nat := 0x03

def MB_FRAME_ST_INVALID : Nat := 0
def MB_FRAME_ST_LINK : Nat := 1
def MB_FRAME_ST_TRACE : Nat := 2
def MB_FRAME_ST_PUBSUB : Nat := 3
def MB_FRAME_ST_COMM_THROUGHPUT : Nat := 4

/-- `PAYLOAD_SIZE_MAX_U8` from mb_device.c: `512 - 12 = 500` payload bytes. -/
def PAYLOAD_SIZE_MAX_U8 : Nat := 500

/-- `PAYLOAD_SIZE_MAX_U32` from mb_device.c: `(512 - 12) >> 2 = 125` words. -/
def PAYLOAD_SIZE_MAX_U32 : Nat := 125

def MB_TOPIC_SIZE_MAX : Nat := 32

/-- `mb_frame_length_check` from frame.h:
`(uint8_t) ((length * (uint32_t) 0xd8d9) >> 11)`; the argument is a `uint8_t`. -/
def mb_frame_length_check (length : Nat) : Nat :=
  (((length % 256) * 0xd8d9) >>> 11) % 256

/-- `mb_frame_link_check` from frame.h: `0xcba9U * (uint32_t) link_msg`
in unsigned 32-bit arithmetic; the argument is a `uint16_t`. -/
def mb_frame_link_check (link_msg : Nat) : Nat :=
  (0xcba9 * (link_msg % 65536)) % 4294967296

/-! ### Little-endian byte serialization of 32-bit words -/

/-- The four little-endian bytes of a 32-bit word. -/
def u32_bytes (w : Nat) : List Nat :=
  [w % 256, w / 256 % 256, w / 65536 % 256, w / 16777216 % 256]

/-- Serialize a sequence of 32-bit words into little-endian bytes. -/
def words_to_bytes : List Nat → List Nat
  | [] => []
  | w :: ws => u32_bytes w ++ words_to_bytes ws

/-- Deserialize little-endian bytes into 32-bit words (drops a ragged tail,
matching an aligned `uint32_t *` view of the buffer). -/
def bytes_to_words : List Nat → List Nat
  | b0 :: b1 :: b2 :: b3 :: rest =>
      (b0 + 256 * b1 + 65536 * b2 + 16777216 * b3) :: bytes_to_words rest
  | _ => []

theorem words_to_bytes_length (ws : List Nat) :
    (words_to_bytes ws).length = 4 * ws.length := by
  induction ws with
  | nil => rfl
  | cons w ws ih => simp [words_to_bytes, u32_bytes, ih]; omega

theorem bytes_to_words_of_words_to_bytes (ws : List Nat)
    (h : ∀ w ∈ ws, w < 4294967296) :
    bytes_to_words (words_to_bytes ws) = ws := by
  induction ws with
  | nil => rfl
  | cons w ws ih =>
    have hw : w < 4294967296 := h w (List.mem_cons_self w ws)
    have hrest : ∀ x ∈ ws, x < 4294967296 := fun x hx => h x (List.mem_cons_of_mem w hx)
    simp only [words_to_bytes, u32_bytes, List.cons_append, List.nil_append,
      bytes_to_words, List.cons.injEq]
    exact ⟨by omega, ih hrest⟩

/-! ### Frame encoder (`msg_alloc_send_to_device`, `send_to_device` in mb_device.c)

`msg_alloc_send_to_device` validates the payload length, writes the 8-byte
header and the zero footer, and advances `out_frame_id`.  It is modelled as
returning the header byte list and the new `out_frame_id`, or `none` on a
length violation (in which case `out_frame_id` is untouched). -/

def msg_alloc_send_to_device (out_frame_id : Nat) (service_type : Nat)
    (length_u32 : Nat) (metadata : Nat) : Option (List Nat × Nat) :=
  -- the C parameter is `uint8_t length_u32`: callers passing wider values
  -- have them truncated mod 256 at the call
  let length_u8v := length_u32 % 256
  if length_u8v = 0 ∨ length_u8v > PAYLOAD_SIZE_MAX_U32 then
    none
  else
    -- data_u16[1] = (MB_FRAME_FT_DATA << 11) | (out_frame_id & MB_FRAMER_FRAME_ID_MAX)
    let fid16 := (MB_FRAME_FT_DATA <<< 11) ||| (out_frame_id &&& MB_FRAMER_FRAME_ID_MAX)
    some ([MB_FRAMER_SOF1,
           (MB_FRAMER_SOF2 ||| service_type) % 256,
           fid16 % 256, fid16 / 256 % 256,
           (length_u8v - 1) % 256,
           mb_frame_length_check (length_u8v - 1),
           metadata % 256, metadata / 256 % 256],
          (out_frame_id + 1) &&& MB_FRAMER_FRAME_ID_MAX)

/-- `send_to_device`: allocate a frame, copy `length_u32` payload words after
the header, and push the message.  Returns the list of queued frame byte
vectors (empty when allocation fails) and the new `out_frame_id`.  The frame
ends with the zero `frame_check` footer word. -/
def send_to_device (out_frame_id : Nat) (service_type : Nat) (metadata : Nat)
    (data : List Nat) (length_u32 : Nat) : List (List Nat) × Nat :=
  match msg_alloc_send_to_device out_frame_id service_type length_u32 metadata with
  | none => ([], out_frame_id)
  | some (hdr, fid') =>
      -- the allocator received `length_u32` truncated to its uint8_t
      -- parameter and sized the message accordingly; the memcpy copies the
      -- caller's full `length_u32 << 2` bytes, overwriting the zero footer
      -- whenever the length was truncated
      ([(hdr ++ words_to_bytes (data.take length_u32) ++ u32_bytes 0).take
          (4 * (length_u32 % 256) + 12)], fid')

/-! ### Frame decoder (`handle_stream_in_frame`, `handle_stream_in_link_frame`) -/

/-- Events of `enum events_e` in mb_device.c, with the C numeric values. -/
def EV_INVALID : Nat := 0
def EV_STATE_ENTER : Nat := 1
def EV_STATE_EXIT : Nat := 2
def EV_RESET : Nat := 3
def EV_ADVANCE : Nat := 4
def EV_PUBSUB_FLUSH : Nat := 5
def EV_LINK_RESET_REQ : Nat := 6
def EV_LINK_RESET_ACK : Nat := 7
def EV_LINK_DISCONNECT_REQ : Nat := 8
def EV_LINK_DISCONNECT_ACK : Nat := 9
def EV_BACKEND_OPEN_ACK : Nat := 10
def EV_BACKEND_OPEN_NACK : Nat := 11
def EV_BACKEND_OPEN_BULK_ACK : Nat := 12
def EV_BACKEND_OPEN_BULK_NACK : Nat := 13
def EV_BACKEND_CLOSE_ACK : Nat := 14
def EV_API_OPEN_REQUEST : Nat := 15
def EV_API_CLOSE_REQUEST : Nat := 16

/-- Disposition of one inbound 512-byte frame by `handle_stream_in_frame`. -/
inductive StreamAction where
  /-- SOF1 or SOF2 mismatch: warning logged, frame skipped. -/
  | framingError : StreamAction
  /-- Link-class frame handed to `handle_stream_in_link_frame`:
  `linkCheckOk` is the link-check verification result, `event` the state
  machine event produced (`none` when the frame is dropped). -/
  | linkFrame (linkCheckOk : Bool) (event : Option Nat) : StreamAction
  /-- Data frame whose payload is dispatched to the service handler
  (`handle_in_link` / `handle_in_trace` / `handle_in_pubsub` /
  `handle_in_throughput`) with the metadata and `length + 1` payload words. -/
  | dispatch (service_type : Nat) (metadata : Nat) (payload : List Nat) : StreamAction
  /-- `MB_FRAME_ST_INVALID`: warning logged, no handler. -/
  | serviceInvalid : StreamAction
  /-- Unknown service type: warning logged, no handler. -/
  | serviceUnknown (service_type : Nat) : StreamAction
deriving DecidableEq

/-- `handle_stream_in_link_frame`: verify `link_check` over bytes 2..3
against the 32-bit word at bytes 4..7, require `MB_FRAME_FT_CONTROL`, and
map the control subtype (byte 2) to a state machine event. -/
def handle_stream_in_link_frame (bytes : List Nat) : StreamAction :=
  let b := fun i => bytes.getD i 0
  let link_check := mb_frame_link_check (b 2 + 256 * b 3)
  if link_check ≠ b 4 + 256 * b 5 + 65536 * b 6 + 16777216 * b 7 then
    .linkFrame false none
  else if b 3 >>> 3 ≠ MB_FRAME_FT_CONTROL then
    .linkFrame true none
  else if b 2 = MB_FRAME_CTRL_RESET_REQ then .linkFrame true (some EV_LINK_RESET_REQ)
  else if b 2 = MB_FRAME_CTRL_RESET_ACK then .linkFrame true (some EV_LINK_RESET_ACK)
  else if b 2 = MB_FRAME_CTRL_DISCONNECT_REQ then .linkFrame true (some EV_LINK_DISCONNECT_REQ)
  else if b 2 = MB_FRAME_CTRL_DISCONNECT_ACK then .linkFrame true (some EV_LINK_DISCONNECT_ACK)
  else .linkFrame true none

/-- Result of `handle_stream_in_frame` on one frame: the frame disposition,
the updated `in_frame_id` / `in_frame_count` device fields, the received
`frame_id` (0 when not a data frame), and the two warning conditions. -/
structure StreamInResult where
  action : StreamAction
  in_frame_id : Nat
  in_frame_count : Nat
  rx_frame_id : Nat
  gap_logged : Bool
  length_check_mismatch : Bool
deriving DecidableEq

/-- `handle_stream_in_frame` from mb_device.c.  `in_frame_id` and
`in_frame_count` are the device-state fields read and written by the C
function; `bytes` is the 512-byte frame buffer. -/
def handle_stream_in_frame (in_frame_id : Nat) (in_frame_count : Nat)
    (bytes : List Nat) : StreamInResult :=
  let b := fun i => bytes.getD i 0
  if b 0 ≠ MB_FRAMER_SOF1 then
    ⟨.framingError, in_frame_id, in_frame_count, 0, false, false⟩
  else if b 1 &&& MB_FRAMER_SOF2_MASK ≠ MB_FRAMER_SOF2 then
    ⟨.framingError, in_frame_id, in_frame_count, 0, false, false⟩
  else
    let service_type := b 1 &&& 0x0F
    let frame_id := (b 2 + 256 * b 3) &&& MB_FRAMER_FRAME_ID_MAX
    let frame_type := b 3 >>> 3
    if frame_type = MB_FRAME_FT_ACK_ALL ∨ frame_type = MB_FRAME_FT_ACK_ONE ∨
        frame_type = MB_FRAME_FT_NACK_FRAME_ID ∨ frame_type = MB_FRAME_FT_RESERVED ∨
        frame_type = MB_FRAME_FT_CONTROL then
      ⟨handle_stream_in_link_frame bytes, in_frame_id, in_frame_count, 0, false, false⟩
    else
      -- MB_FRAME_FT_DATA breaks out of the switch; the default case only logs
      -- a warning and falls through to the same data processing.
      let gap := in_frame_id ≠ frame_id
      let in_frame_id' := (frame_id + 1) &&& MB_FRAMER_FRAME_ID_MAX
      let length := b 4
      let lc_mismatch := mb_frame_length_check length ≠ b 5
      let metadata := b 6 + 256 * b 7
      let payload := bytes_to_words ((bytes.drop 8).take (4 * (length + 1)))
      let action :=
        if service_type = MB_FRAME_ST_INVALID then StreamAction.serviceInvalid
        else if service_type = MB_FRAME_ST_LINK then .dispatch MB_FRAME_ST_LINK metadata payload
        else if service_type = MB_FRAME_ST_TRACE then .dispatch MB_FRAME_ST_TRACE metadata payload
        else if service_type = MB_FRAME_ST_PUBSUB then .dispatch MB_FRAME_ST_PUBSUB metadata payload
        else if service_type = MB_FRAME_ST_COMM_THROUGHPUT then
          .dispatch MB_FRAME_ST_COMM_THROUGHPUT metadata payload
        else .serviceUnknown service_type
      ⟨action, in_frame_id', in_frame_count + 1, frame_id, decide gap, decide lc_mismatch⟩

/-! ### `publish_to_device` (mb_device.c) -/

/-- Modelled from the spec: the `jsdrv_union_s` value tags from the public
`jsdrv.h` header, which is not among the sources.  The spec's concrete
scenario fixes the string tag at 0x20; JSON and BIN only need to be distinct
tags handled by the same string/binary copy paths. -/
def JSDRV_UNION_STR : Nat := 0x20
def JSDRV_UNION_JSON : Nat := 0x21
def JSDRV_UNION_BIN : Nat := 0x22

/-- The fields of a `jsdrv_union_s` value that `publish_to_device` reads:
the type tag, the declared size, and the raw value bytes (for scalar types
these are the 8 little-endian bytes of the `u64` member). -/
structure UnionValue where
  type : Nat
  size : Nat
  bin : List Nat
deriving DecidableEq

/-- Modelled from the spec: `jsdrv_cstr_copy(dst, src, n)` copies at most
`n - 1` bytes of the NUL-terminated `src` and always NUL-terminates; here it
writes into a buffer of length `n` whose unused tail keeps the previous
(zeroed) contents. -/
def jsdrv_cstr_copy_field (src : List Nat) (n : Nat) : List Nat :=
  let chars := (src.takeWhile (fun c => c ≠ 0)).take (n - 1)
  chars ++ List.replicate (n - chars.length) 0

/-- `publish_to_device` from mb_device.c: pad the value size up to 8 bytes,
compute the payload length and metadata, allocate the frame, and populate the
32-byte topic field and the value.  Returns the queued frame byte vectors and
the new `out_frame_id`. -/
def publish_to_device (out_frame_id : Nat) (topic : List Nat) (value : UnionValue) :
    List (List Nat) × Nat :=
  let value_size := if value.size < 8 then 8 else value.size
  let length_u8 := MB_TOPIC_SIZE_MAX + value_size
  let length_u32 := (length_u8 + 3) >>> 2
  let metadata := (value.type &&& 0x00ff) ||| ((length_u8 &&& 0x0003) <<< 8)
  match msg_alloc_send_to_device out_frame_id MB_FRAME_ST_PUBSUB length_u32 metadata with
  | none => ([], out_frame_id)
  | some (hdr, fid') =>
      -- the allocator received `length_u32` truncated to its uint8_t
      -- parameter, so the message spans `4 * (length_u32 % 256) + 12` bytes;
      -- the topic and value writes overwrite the zero footer whenever the
      -- length was truncated
      let window := 4 * (length_u32 % 256) + 4
      let topic_field := jsdrv_cstr_copy_field topic MB_TOPIC_SIZE_MAX
      let written :=
        if value.type = JSDRV_UNION_JSON ∨ value.type = JSDRV_UNION_STR then
          jsdrv_cstr_copy_field value.bin (PAYLOAD_SIZE_MAX_U8 - MB_TOPIC_SIZE_MAX)
        else if value.type = JSDRV_UNION_BIN then
          value.bin.take value.size
        else
          value.bin.take 8
      -- message bytes not covered by the topic/value writes keep the
      -- allocator's contents (the trailing zero footer; the rest modelled
      -- as zero)
      ([hdr ++ (topic_field ++ written ++ List.replicate window 0).take window], fid')

/-! ### Connection state machine (mb_device.c)

States of `enum state_e`, with the C numeric values. -/

def ST_INVALID : Nat := 0
def ST_NOT_PRESENT : Nat := 1
def ST_CLOSED : Nat := 2
def ST_LL_OPEN : Nat := 3
def ST_LL_BULK_OPEN : Nat := 4
def ST_LINK_RESET : Nat := 5
def ST_OPEN : Nat := 6
def ST_PUBSUB_FLUSH : Nat := 7
def ST_LINK_DISCONNECT : Nat := 8
def ST_LL_CLOSE_PEND : Nat := 9
def ST_LL_CLOSE : Nat := 10
def ST_FINALIZED : Nat := 11

/-- ASCII bytes of the C string literal "h|disconnect"
(`PUBSUB_DISCONNECT_STR` in mb_device.c). -/
def PUBSUB_DISCONNECT_STR : List Nat :=
  [104, 124, 100, 105, 115, 99, 111, 110, 110, 101, 99, 116]

/-- ASCII bytes of "././!ping", the sentinel topic of `on_pubsub_flush`. -/
def topic_pubsub_flush_ping : List Nat := [46, 47, 46, 47, 33, 112, 105, 110, 103]

/-- ASCII bytes of "/./!pong", the suffix tested by `handle_in_pubsub`. -/
def topic_pong_tail : List Nat := [47, 46, 47, 33, 112, 111, 110, 103]

/-- ASCII bytes of `JSDRV_MSG_OPEN "#"`, the "!open#" report subtopic. -/
def topic_open_rc : List Nat := [33, 111, 112, 101, 110, 35]

/-- ASCII bytes of `JSDRV_MSG_CLOSE "#"`, the "!close#" report subtopic. -/
def topic_close_rc : List Nat := [33, 99, 108, 111, 115, 101, 35]

/-- The `dev_s` fields read and written by the connection state machine. -/
structure MbDev where
  state : Nat
  finalize_pending : Bool
  out_frame_id : Nat
deriving DecidableEq

/-- Observable outputs of the state machine's guard and entry actions. -/
inductive Emission where
  /-- `send_frame_ctrl_to_device`: an 8-byte control frame with this subtype. -/
  | ctrl_frame (subtype : Nat)
  /-- `JSDRV_MSG_OPEN` command queued to the backend (`on_ll_open`). -/
  | backend_open
  /-- `JSDRV_USBBK_MSG_BULK_IN_STREAM_OPEN` queued to the backend. -/
  | backend_bulk_open
  /-- `JSDRV_MSG_CLOSE` command queued to the backend (`on_ll_close`). -/
  | backend_close
  /-- `send_to_frontend`: a status report on the given subtopic. -/
  | frontend (subtopic : List Nat) (status : Nat)
  /-- `publish_to_device`: a pubsub publish frame with this topic and value. -/
  | publish_dev (topic : List Nat) (value : List Nat)
  /-- `jsdrvp_backend_send`: a message forwarded to the broker. -/
  | broker_msg (topic : List Nat) (value : List Nat)
deriving DecidableEq

/-- The guard functions referenced by the transition tables in mb_device.c. -/
inductive SmFn where
  | is_device_not_present
  | is_device_present
  | on_link_reset_req
  | guard_is_finalizing
  | guard_open_fail
  | guard_close_fail
  | guard_open_success
  | guard_close_success
deriving DecidableEq

/-- Evaluate a guard: its boolean result and the emissions of its side
effects.  No guard modifies the device fields. -/
def sm_fn_eval : SmFn → MbDev → Bool × List Emission
  | .is_device_not_present, d => (d.state == ST_NOT_PRESENT, [])
  | .is_device_present, d => (!(d.state == ST_NOT_PRESENT), [])
  | .on_link_reset_req, _ => (false, [.ctrl_frame MB_FRAME_CTRL_RESET_ACK])
  | .guard_is_finalizing, d => (d.finalize_pending, [])
  | .guard_open_fail, _ => (true, [.frontend topic_open_rc 1])
  | .guard_close_fail, _ => (true, [.frontend topic_close_rc 1])
  | .guard_open_success, _ => (true, [.frontend topic_open_rc 0])
  | .guard_close_success, _ => (true, [.frontend topic_close_rc 0])

/-- The `on_enter` column of `state_machine_states`: the entry action of each
state (`on_open` exists in the source but does nothing). -/
def sm_on_enter (state : Nat) (d : MbDev) : MbDev × List Emission :=
  if state = ST_LL_OPEN then ({d with out_frame_id := 0}, [.backend_open])
  else if state = ST_LL_BULK_OPEN then (d, [.backend_bulk_open])
  else if state = ST_LINK_RESET then (d, [.ctrl_frame MB_FRAME_CTRL_RESET_REQ])
  else if state = ST_PUBSUB_FLUSH then
    (d, [.publish_dev topic_pubsub_flush_ping PUBSUB_DISCONNECT_STR])
  else if state = ST_LINK_DISCONNECT then (d, [.ctrl_frame MB_FRAME_CTRL_DISCONNECT_REQ])
  else if state = ST_LL_CLOSE then (d, [.backend_close])
  else (d, [])

/-- One row of a `state_machine_transition_s` table:
`(event, state_next, guard)`. -/
def SmTransition : Type := Nat × Nat × Option SmFn

def state_machine_global : List SmTransition :=
  [(EV_RESET, ST_NOT_PRESENT, some .is_device_not_present),
   (EV_RESET, ST_CLOSED, some .is_device_present)]

def state_machine_not_present : List SmTransition :=
  [(EV_API_OPEN_REQUEST, ST_NOT_PRESENT, some .guard_open_fail),
   (EV_API_CLOSE_REQUEST, ST_NOT_PRESENT, some .guard_close_fail)]

def state_machine_closed : List SmTransition :=
  [(EV_API_OPEN_REQUEST, ST_LL_OPEN, none)]

def state_machine_ll_open : List SmTransition :=
  [(EV_BACKEND_OPEN_ACK, ST_LL_BULK_OPEN, none),
   (EV_BACKEND_OPEN_NACK, ST_LL_CLOSE, none),
   (EV_API_CLOSE_REQUEST, ST_LL_CLOSE, none)]

def state_machine_ll_bulk_open : List SmTransition :=
  [(EV_BACKEND_OPEN_BULK_ACK, ST_LINK_RESET, none),
   (EV_BACKEND_OPEN_BULK_NACK, ST_LL_CLOSE, none),
   (EV_API_CLOSE_REQUEST, ST_LL_CLOSE, none)]

def state_machine_link_reset : List SmTransition :=
  [(EV_LINK_RESET_REQ, ST_INVALID, some .on_link_reset_req),
   (EV_LINK_RESET_ACK, ST_OPEN, some .guard_open_success),
   (EV_API_CLOSE_REQUEST, ST_LL_CLOSE, none)]

def state_machine_open : List SmTransition :=
  [(EV_API_CLOSE_REQUEST, ST_PUBSUB_FLUSH, none)]

def state_machine_pubsub_flush : List SmTransition :=
  [(EV_PUBSUB_FLUSH, ST_LINK_DISCONNECT, none)]

def state_machine_link_disconnect : List SmTransition :=
  [(EV_LINK_DISCONNECT_ACK, ST_LL_CLOSE_PEND, none)]

def state_machine_ll_close_pend : List SmTransition :=
  [(EV_ADVANCE, ST_LL_CLOSE, none)]

def state_machine_ll_close : List SmTransition :=
  [(EV_BACKEND_CLOSE_ACK, ST_FINALIZED, some .guard_is_finalizing),
   (EV_BACKEND_CLOSE_ACK, ST_CLOSED, some .guard_close_success)]

/-- The `transitions` column of `state_machine_states`, indexed by state. -/
def state_machine_transitions (state : Nat) : List SmTransition :=
  if state = ST_INVALID then state_machine_global
  else if state = ST_NOT_PRESENT then state_machine_not_present
  else if state = ST_CLOSED then state_machine_closed
  else if state = ST_LL_OPEN then state_machine_ll_open
  else if state = ST_LL_BULK_OPEN then state_machine_ll_bulk_open
  else if state = ST_LINK_RESET then state_machine_link_reset
  else if state = ST_OPEN then state_machine_open
  else if state = ST_PUBSUB_FLUSH then state_machine_pubsub_flush
  else if state = ST_LINK_DISCONNECT then state_machine_link_disconnect
  else if state = ST_LL_CLOSE_PEND then state_machine_ll_close_pend
  else if state = ST_LL_CLOSE then state_machine_ll_close
  else []

/-- `state_transition`: run the (absent) exit action, set the new state, and
run the entry action. -/
def state_transition (d : MbDev) (next : Nat) : MbDev × List Emission :=
  sm_on_enter next { d with state := next }

/-- `transitions_evaluate`: scan a transition table for the first entry
matching `event` whose guard passes.  Guard side effects are emitted even
when the guard fails and scanning continues. -/
def transitions_evaluate (d : MbDev) (event : Nat) :
    List SmTransition → Bool × MbDev × List Emission
  | [] => (false, d, [])
  | (ev, next, g) :: rest =>
    if ev = event then
      match g with
      | none =>
        let (d', es) := state_transition d next
        (true, d', es)
      | some fn =>
        let (ok, es1) := sm_fn_eval fn d
        if ok then
          let (d', es2) := state_transition d next
          (true, d', es1 ++ es2)
        else
          let (fired, d', es2) := transitions_evaluate d event rest
          (fired, d', es1 ++ es2)
    else transitions_evaluate d event rest

/-- `state_machine_process`: evaluate the global table (state 0) first, the
current state's table second. -/
def state_machine_process (d : MbDev) (event : Nat) : MbDev × List Emission :=
  let (fired, d1, es1) := transitions_evaluate d event (state_machine_transitions ST_INVALID)
  if fired then (d1, es1)
  else
    let (_, d2, es2) := transitions_evaluate d1 event (state_machine_transitions d1.state)
    (d2, es1 ++ es2)

/-- Whether `state_machine_process` fires a transition for this event. -/
def state_machine_fires (d : MbDev) (event : Nat) : Bool :=
  (transitions_evaluate d event (state_machine_transitions ST_INVALID)).1 ||
  (transitions_evaluate d event (state_machine_transitions d.state)).1

/-! ### `handle_in_pubsub` (mb_device.c) -/

def ascii_to_lower (c : Nat) : Nat := if 65 ≤ c ∧ c ≤ 90 then c + 32 else c

/-- Modelled from the spec: `jsdrv_cstr_casecmp` (jsdrv/cstr.h is not among
the sources) compares two strings case-insensitively; like `strcasecmp` it
returns 0 exactly when they are equal — the callers in this repository test
equality as `0 == jsdrv_cstr_casecmp(...)`. -/
def jsdrv_cstr_casecmp (a b : List Nat) : Nat :=
  if a.map ascii_to_lower = b.map ascii_to_lower then 0 else 1

/-- Modelled from the spec: `jsdrv_cstr_ends_with(s, suffix)`. -/
def jsdrv_cstr_ends_with (s tail_ : List Nat) : Bool :=
  decide (tail_ <:+ s)

/-- Modelled from the spec: `jsdrv_topic_append` joins with a '/' level
separator. -/
def jsdrv_topic_append (t sub : List Nat) : List Nat := t ++ [47] ++ sub

/-- Read a NUL-terminated C string out of a byte buffer. -/
def cstr_read (bytes : List Nat) : List Nat := bytes.takeWhile (fun c => c ≠ 0)

/-- `handle_in_pubsub` from mb_device.c: decode the value size from the
metadata, rebuild the full topic from the device prefix and the 32-byte topic
field, and either raise `EV_PUBSUB_FLUSH` on the state machine (disconnect
pong detection) or forward the publish to the broker.  `payload_bytes` is the
byte view of the `data` payload pointer, `length` the word count passed by
`handle_stream_in_frame`. -/
def handle_in_pubsub (d : MbDev) (prefix_bytes : List Nat) (metadata : Nat)
    (payload_bytes : List Nat) (length : Nat) : MbDev × List Emission :=
  let value_type := metadata &&& 0x00ff
  let size_lsb := (metadata >>> 8) &&& 0x0003
  let size0 := (length <<< 2) - MB_TOPIC_SIZE_MAX
  let size := if size_lsb ≠ 0 then size0 - 4 + size_lsb else size0
  let topic := jsdrv_topic_append prefix_bytes (cstr_read (payload_bytes.take MB_TOPIC_SIZE_MAX))
  let value_bytes := (payload_bytes.drop MB_TOPIC_SIZE_MAX).take size
  if jsdrv_cstr_ends_with topic topic_pong_tail ∧ value_type = JSDRV_UNION_STR ∧
      jsdrv_cstr_casecmp PUBSUB_DISCONNECT_STR (cstr_read value_bytes) ≠ 0 then
    state_machine_process d EV_PUBSUB_FLUSH
  else
    (d, [.broker_msg topic value_bytes])

/-- A device prefix "u/0" used by the close-scenario evaluation. -/
def mb_prefix_u0 : List Nat := [117, 47, 48]

/-- The byte payload of a device pong frame echoing the disconnect sentinel:
the 32-byte topic field "././!pong" (NUL padded), the value
"h|disconnect" with its NUL, and padding to the 48-byte (12-word) payload. -/
def pong_payload_bytes : List Nat :=
  [46, 47, 46, 47, 33, 112, 111, 110, 103] ++ List.replicate 23 0 ++
    PUBSUB_DISCONNECT_STR ++ [0] ++ [0, 0, 0]

/-- The same pong payload with the value's last byte changed
("h|disconnecq"), i.e. a value differing from the sentinel. -/
def pong_payload_bytes_x : List Nat :=
  [46, 47, 46, 47, 33, 112, 111, 110, 103] ++ List.replicate 23 0 ++
    [104, 124, 100, 105, 115, 99, 111, 110, 110, 101, 99, 113] ++ [0] ++ [0, 0, 0]

/-! ### js110 sample processor (src/js110_sample_processor.c) -/

/-- Modelled from the spec: `JS110_SUPPRESS_SAMPLES_MAX` is defined in
`jsdrv_prv/js110_sample_processor.h`, which is not among the sources.  The
spec (§3) describes the ring as a power-of-two buffer holding at least
`pre + window + post + 1` samples with maxima `pre ≤ 8`, `post ≤ 8`,
`window ≤ 12`, so the size is `2^5 = 32`. -/
def JS110_SUPPRESS_SAMPLES_MAX : Nat := 32

/-- `_SUPPRESS_SAMPLES_MASK = JS110_SUPPRESS_SAMPLES_MAX - 1`. -/
def SUPPRESS_SAMPLES_MASK : Nat := JS110_SUPPRESS_SAMPLES_MAX - 1

def SUPPRESS_WINDOW_MAX : Nat := 12
def SUPPRESS_PRE_MAX : Nat := 8
def SUPPRESS_POST_MAX : Nat := 8

/-- Modelled from the spec: `JS110_I_RANGE_MISSING = 8` (range 8 = missing). -/
def JS110_I_RANGE_MISSING : Nat := 8

/-- Modelled from the spec: the `interp` replacement mode tag. -/
def JS110_SUPPRESS_MODE_INTERP : Nat := 1

/-- `SUPPRESS_MATRIX_M` from js110_sample_processor.c, indexed `[to][from]`. -/
def SUPPRESS_MATRIX_M : List (List Nat) :=
  [[0, 5, 5, 5, 5, 5, 6, 6, 0],
   [3, 0, 5, 5, 5, 6, 7, 8, 0],
   [4, 4, 0, 6, 6, 7, 7, 8, 0],
   [4, 4, 4, 0, 6, 6, 7, 7, 0],
   [4, 4, 4, 4, 0, 6, 7, 6, 0],
   [4, 4, 4, 4, 4, 0, 7, 6, 0],
   [4, 4, 4, 4, 4, 4, 0, 6, 0],
   [0, 0, 0, 0, 0, 0, 0, 0, 0],
   [0, 0, 0, 0, 0, 0, 0, 0, 0]]

/-- `SUPPRESS_MATRIX_N` from js110_sample_processor.c, indexed `[to][from]`. -/
def SUPPRESS_MATRIX_N : List (List Nat) :=
  [[0, 5, 7, 7, 7, 7, 7, 8, 0],
   [3, 0, 7, 7, 7, 7, 7, 8, 0],
   [5, 5, 0, 7, 7, 7, 7, 8, 0],
   [5, 5, 5, 0, 7, 7, 7, 8, 0],
   [5, 5, 5, 5, 0, 7, 7, 8, 0],
   [5, 5, 5, 5, 5, 0, 7, 8, 0],
   [5, 5, 5, 5, 5, 5, 0, 8, 0],
   [0, 0, 0, 0, 0, 0, 0, 0, 0],
   [0, 0, 0, 0, 0, 0, 0, 0, 0]]

/-- `m[to_][from_]` for a 9×9 suppression matrix. -/
def matrix_entry (m : List (List Nat)) (to_ from_ : Nat) : Nat :=
  (m.getD to_ []).getD from_ 0

/-- One ring-buffer slot of `struct js110_sample_s`.  The all-NaN
`SAMPLE_MISSING` sentinel (current range 8 = missing) is the `missing`
constructor; calibrated samples carry exact rational arithmetic in place of
the C `float` computation. -/
inductive js110_sample where
  | missing
  | valid (i v p : ℚ) (current_range gpi0 gpi1 : Nat)
deriving DecidableEq

def SAMPLE_MISSING : js110_sample := .missing

/-- `struct js110_sp_s`: the sample-processor state.  `cal[a][b][range]` is
the calibration table. -/
structure js110_sp_s where
  cal : Nat → Nat → Nat → ℚ
  sample_count : Nat
  head : Nat
  samples : Nat → js110_sample
  sample_missing_count : Nat
  skip_count : Nat
  sample_sync_count : Nat
  contiguous_count : Nat
  is_skipping : Nat
  suppress_samples_pre : Nat
  suppress_samples_window : Nat
  suppress_samples_post : Nat
  suppress_mode : Nat
  suppress_matrix : List (List Nat)
  suppress_samples_remaining : Nat
  suppress_samples_counter : Nat
  i_range_last : Nat
  voltage_range : Nat
  idx_out : Nat
  idx_suppress_start : Nat

/-- `js110_sp_reset` from js110_sample_processor.c: clears the counters and
suppression state and fills the ring with `SAMPLE_MISSING` (the head pointer
is not touched). -/
def js110_sp_reset (self : js110_sp_s) : js110_sp_s :=
  { self with
    sample_missing_count := 0
    is_skipping := 1
    skip_count := 0
    sample_sync_count := 0
    contiguous_count := 0
    sample_count := 0
    suppress_samples_remaining := 0
    suppress_samples_counter := 0
    i_range_last := 7
    voltage_range := 0
    idx_out := 0
    idx_suppress_start := 0
    samples := fun _ => SAMPLE_MISSING }

/-- `js110_sp_initialize`: zero the whole struct (`memset`), set the default
configuration (`pre = 1`, `window = 0`, `post = 1`, interp mode, conservative
matrix), then reset. -/
def js110_sp_initialize : js110_sp_s :=
  js110_sp_reset
    { cal := fun _ _ _ => 0
      sample_count := 0
      head := 0
      samples := fun _ => SAMPLE_MISSING
      sample_missing_count := 0
      skip_count := 0
      sample_sync_count := 0
      contiguous_count := 0
      is_skipping := 0
      suppress_samples_pre := 1
      suppress_samples_window := 0
      suppress_samples_post := 1
      suppress_mode := JS110_SUPPRESS_MODE_INTERP
      suppress_matrix := SUPPRESS_MATRIX_N
      suppress_samples_remaining := 0
      suppress_samples_counter := 0
      i_range_last := 0
      voltage_range := 0
      idx_out := 0
      idx_suppress_start := 0 }

/-- The sample value computed by `js110_sp_process` for one input word:
either `SAMPLE_MISSING` or the calibrated sample. -/
def js110_sp_process_sample (cal : Nat → Nat → Nat → ℚ) (sample_u32 v_range : Nat) :
    js110_sample :=
  let i_range := (sample_u32 &&& 3) ||| ((sample_u32 >>> 14) &&& 4)
  if i_range > 7 ∨ sample_u32 = 0xffffffff then SAMPLE_MISSING
  else
    let i0 : ℚ := ((sample_u32 >>> 2) &&& 0x3fff : Nat)
    let v0 : ℚ := ((sample_u32 >>> 18) &&& 0x3fff : Nat)
    let i := (i0 + cal 0 0 i_range) * cal 0 1 i_range
    let v := (v0 + cal 1 0 v_range) * cal 1 1 v_range
    .valid i v (i * v) i_range ((sample_u32 >>> 2) &&& 1) ((sample_u32 >>> 18) &&& 1)

/-- `js110_sp_process` from js110_sample_processor.c: count the sample,
interpret and calibrate it, store it at `head`, advance `head`, and return
the oldest ring slot once `sample_count` reaches `_SUPPRESS_SAMPLES_MASK`
(`SAMPLE_MISSING` before that). -/
def js110_sp_process (self : js110_sp_s) (sample_u32 v_range : Nat) :
    js110_sample × js110_sp_s :=
  let sc := self.sample_count + 1
  let i_range := (sample_u32 &&& 3) ||| ((sample_u32 >>> 14) &&& 4)
  let is_missing : Bool := decide (i_range > 7 ∨ sample_u32 = 0xffffffff)
  let s := js110_sp_process_sample self.cal sample_u32 v_range
  let self' := { self with
    sample_count := sc
    sample_missing_count :=
      if is_missing then self.sample_missing_count + 1 else self.sample_missing_count
    contiguous_count := if is_missing then 0 else self.contiguous_count + 1
    skip_count :=
      if is_missing ∧ self.is_skipping = 0 then self.skip_count + 1 else self.skip_count
    is_skipping := if is_missing then 1 else 0
    samples := Function.update self.samples self.head s
    head := (self.head + 1) &&& SUPPRESS_SAMPLES_MASK }
  if sc ≥ SUPPRESS_SAMPLES_MASK then (self'.samples self'.head, self')
  else (SAMPLE_MISSING, self')

/-- Feed a stream of `(sample_u32, v_range)` inputs one sample at a time,
collecting the returned samples. -/
def js110_sp_run (self : js110_sp_s) : List (Nat × Nat) → List js110_sample
  | [] => []
  | (u, vr) :: rest =>
    (js110_sp_process self u vr).1 :: js110_sp_run (js110_sp_process self u vr).2 rest

/-- The processor state after feeding a stream of inputs. -/
def js110_sp_state_after (self : js110_sp_s) (inputs : List (Nat × Nat)) : js110_sp_s :=
  inputs.foldl (fun st uv => (js110_sp_process st uv.1 uv.2).2) self

/-! ### js220 memory-operation coordinator (mb_device.c, js220 driver) -/

/-- Modelled from the spec: the `js220_port3` operation codes from
`js220_api.h`, which is not among the sources.  `JS220_PORT3_OP_NONE` is 0
(the code tests `if (d->mem_hdr.op)`); the remaining codes only need to be
distinct. -/
def JS220_PORT3_OP_NONE : Nat := 0
def JS220_PORT3_OP_ERASE : Nat := 1
def JS220_PORT3_OP_WRITE_START : Nat := 2
def JS220_PORT3_OP_WRITE_DATA : Nat := 3
def JS220_PORT3_OP_WRITE_FINALIZE : Nat := 4
def JS220_PORT3_OP_READ_REQ : Nat := 5
def JS220_PORT3_OP_READ_DATA : Nat := 6
def JS220_PORT3_OP_ACK : Nat := 7

/-- Modelled from the spec: nonzero `jsdrv/error_code.h` return codes
(`Aborted`, `ParameterInvalid`); only being nonzero and distinct matters. -/
def JSDRV_ERROR_ABORTED : Nat := 8
def JSDRV_ERROR_PARAMETER_INVALID : Nat := 5

def MEM_SIZE_MAX : Nat := 512 * 1024

/-- The `MEM_C` controller region name table ("app", "upd1", "upd2",
"storage", "log", "acfg", "bcfg", "pers") as ASCII byte lists. -/
def MEM_C : List (List Nat) :=
  [[97, 112, 112], [117, 112, 100, 49], [117, 112, 100, 50],
   [115, 116, 111, 114, 97, 103, 101], [108, 111, 103], [97, 99, 102, 103],
   [98, 99, 102, 103], [112, 101, 114, 115]]

/-- Modelled from the spec: the `JS220_PORT3_REGION_CTRL_*` codes matching
`MEM_C`; only their positions are observable here. -/
def MEM_C_U8 : List Nat := [1, 2, 3, 4, 5, 6, 7, 8]

/-- The `MEM_S` sensor region name table ("app1", "app2", "cal_t", "cal_a",
"cal_f", "pers") as ASCII byte lists. -/
def MEM_S : List (List Nat) :=
  [[97, 112, 112, 49], [97, 112, 112, 50], [99, 97, 108, 95, 116],
   [99, 97, 108, 95, 97], [99, 97, 108, 95, 102], [112, 101, 114, 115]]

/-- Modelled from the spec: the `JS220_PORT3_REGION_SENSOR_*` codes matching
`MEM_S`. -/
def MEM_S_U8 : List Nat := [17, 18, 19, 20, 21, 22]

/-- `jsdrv_cstr_to_index`: find a string in a NULL-terminated table. -/
def jsdrv_cstr_to_index (s : List Nat) (table : List (List Nat)) : Option Nat :=
  table.findIdx? (fun t => t = s)

/-- Modelled from the spec: `jsdrv_topic_remove` drops the last '/'-separated
level of a topic together with its separator. -/
def jsdrv_topic_remove (t : List Nat) : List Nat :=
  ((t.reverse.dropWhile (fun c => c ≠ 47)).drop 1).reverse

/-- ASCII bytes of "!rdata". -/
def topic_rdata : List Nat := [33, 114, 100, 97, 116, 97]

/-- ASCII bytes of "h/mem/c/". -/
def topic_mem_c : List Nat := [104, 47, 109, 101, 109, 47, 99, 47]

/-- ASCII bytes of "h/mem/s/". -/
def topic_mem_s : List Nat := [104, 47, 109, 101, 109, 47, 115, 47]

/-- ASCII bytes of "!erase" / "!write" / "!read". -/
def mem_cmd_erase : List Nat := [33, 101, 114, 97, 115, 101]
def mem_cmd_write : List Nat := [33, 119, 114, 105, 116, 101]
def mem_cmd_read : List Nat := [33, 114, 101, 97, 100]

/-- The '#' return-code topic suffix. -/
def JSDRV_TOPIC_SUFFIX_RETURN_CODE : Nat := 35

/-- The memory-operation fields of the js220 `dev_s` plus the outbound frame
counter consumed by `bulk_out_factory`. -/
structure MemState where
  mem_hdr_op : Nat
  mem_hdr_region : Nat
  mem_hdr_status : Nat
  mem_hdr_length : Nat
  mem_offset_valid : Nat
  mem_offset_sent : Nat
  mem_data : Option (List Nat)
  mem_topic : List Nat
  out_frame_id : Nat
deriving DecidableEq

/-- Observable outputs of the memory coordinator. -/
inductive MemEmission where
  /-- `!rdata` binary result sent to the broker. -/
  | rdata_msg (topic : List Nat) (data : List Nat)
  /-- Return-code message on the request topic with the '#' suffix. -/
  | return_code_msg (topic : List Nat) (status : Nat)
  /-- A port-3 bulk frame queued to the device via `bulk_out_factory`. -/
  | port3_frame (frame_id op region length : Nat) (data : List Nat)
deriving DecidableEq

/-- `mem_complete` from mb_device.c (js220 driver): emit the `!rdata` result
for a successful read, emit the return-code message on the stored topic with
the '#' suffix, and clear the memory-operation state (op, offsets, data
buffer, topic).  A no-op when no operation is in flight. -/
def mem_complete (st : MemState) (status : Nat) : List MemEmission × MemState :=
  if st.mem_hdr_op = JS220_PORT3_OP_NONE then ([], st)
  else
    let rdata :=
      if status = 0 ∧ st.mem_hdr_op = JS220_PORT3_OP_READ_REQ then
        [MemEmission.rdata_msg
          (jsdrv_topic_append (jsdrv_topic_remove st.mem_topic) topic_rdata)
          ((st.mem_data.getD []).take st.mem_hdr_length)]
      else []
    (rdata ++ [MemEmission.return_code_msg
        (st.mem_topic ++ [JSDRV_TOPIC_SUFFIX_RETURN_CODE]) status],
     { st with
       mem_hdr_op := 0
       mem_hdr_region := 0
       mem_hdr_status := 0
       mem_hdr_length := 0
       mem_offset_valid := 0
       mem_offset_sent := 0
       mem_data := none
       mem_topic := [] })

/-- The `jsdrv_union_s` fields `handle_cmd_mem` reads from the request value:
the declared size, the raw bytes, and the value converted to `u32`. -/
structure MemMsgValue where
  size : Nat
  bin : List Nat
  as_u32 : Nat
deriving DecidableEq

/-- The body of `handle_cmd_mem` after the abort-in-flight step: resolve the
region table, parse `region/command` out of the topic, build and queue the
port-3 request frame, and record the new operation.  Parameter errors
complete immediately with `ParameterInvalid` (releasing the consumed frame
id, as the C code does with `--d->out_frame_id`).  `topic` is the
prefix-stripped topic; the stored `mem_topic` was already set by the caller. -/
def handle_cmd_mem_body (st : MemState) (topic : List Nat) (value : MemMsgValue) :
    List MemEmission × MemState × Nat :=
  let tables :=
    if topic_mem_c.isPrefixOf topic then some (MEM_C, MEM_C_U8)
    else if topic_mem_s.isPrefixOf topic then some (MEM_S, MEM_S_U8)
    else none
  match tables with
  | none =>
    let (es, st') := mem_complete st JSDRV_ERROR_PARAMETER_INVALID
    (es, st', JSDRV_ERROR_PARAMETER_INVALID)
  | some (table, table_u8) =>
    let rest := topic.drop 8
    let region_str := rest.takeWhile (fun c => c ≠ 47)
    let after := rest.drop region_str.length
    if after.head? ≠ some 47 then
      let (es, st') := mem_complete st JSDRV_ERROR_PARAMETER_INVALID
      (es, st', JSDRV_ERROR_PARAMETER_INVALID)
    else
      let mem_cmd_str := after.drop 1
      match jsdrv_cstr_to_index region_str table with
      | none =>
        let (es, st') := mem_complete st JSDRV_ERROR_PARAMETER_INVALID
        (es, st', JSDRV_ERROR_PARAMETER_INVALID)
      | some idx =>
        -- bulk_out_factory(d, 3, ...) consumes out_frame_id
        let fid := st.out_frame_id
        let st1 := { st with out_frame_id := (st.out_frame_id + 1) % 65536 }
        let region := table_u8.getD idx 0
        if mem_cmd_str = mem_cmd_erase then
          ([.port3_frame fid JS220_PORT3_OP_ERASE region 0 []],
           { st1 with
             mem_hdr_op := JS220_PORT3_OP_ERASE
             mem_hdr_region := region
             mem_hdr_status := 0
             mem_hdr_length := 0 }, 0)
        else if mem_cmd_str = mem_cmd_write then
          if value.size > MEM_SIZE_MAX then
            let st2 := { st1 with out_frame_id := st.out_frame_id }
            let (es, st') := mem_complete st2 JSDRV_ERROR_PARAMETER_INVALID
            (es, st', JSDRV_ERROR_PARAMETER_INVALID)
          else
            ([.port3_frame fid JS220_PORT3_OP_WRITE_START region value.size []],
             { st1 with
               mem_hdr_op := JS220_PORT3_OP_WRITE_START
               mem_hdr_region := region
               mem_hdr_status := 0
               mem_hdr_length := value.size
               mem_data := some (value.bin.take value.size) }, 0)
        else if mem_cmd_str = mem_cmd_read then
          let sz := if value.as_u32 ≠ 0 then value.as_u32 else MEM_SIZE_MAX
          ([.port3_frame fid JS220_PORT3_OP_READ_REQ region sz []],
           { st1 with
             mem_hdr_op := JS220_PORT3_OP_READ_REQ
             mem_hdr_region := region
             mem_hdr_status := 0
             mem_hdr_length := sz
             mem_data := some (List.replicate sz 0) }, 0)
        else
          let st2 := { st1 with out_frame_id := st.out_frame_id }
          let (es, st') := mem_complete st2 JSDRV_ERROR_PARAMETER_INVALID
          (es, st', JSDRV_ERROR_PARAMETER_INVALID)

/-- `handle_cmd_mem` from mb_device.c (js220 driver): abort any in-flight
operation with `Aborted`, record the request topic, then process the new
request. -/
def handle_cmd_mem (st : MemState) (msg_topic : List Nat) (topic : List Nat)
    (value : MemMsgValue) : List MemEmission × MemState × Nat :=
  let (pre, st1) :=
    if st.mem_hdr_op ≠ 0 then mem_complete st JSDRV_ERROR_ABORTED else ([], st)
  let st2 := { st1 with mem_topic := msg_topic }
  let (es, st3, rc) := handle_cmd_mem_body st2 topic value
  (pre ++ es, st3, rc)

/-- A concrete received pubsub data frame: SOF bytes, `frame_id` 4,
frame type data, length field 0 (one payload word), valid length check,
metadata 0x0120, one payload word, zero footer. -/
def frame_id_tracking_witness_bytes : List Nat :=
  [0x55, 3, 4, 0, 0, mb_frame_length_check 0, 0x20, 1] ++ [7, 0, 0, 0] ++ [0, 0, 0, 0]

/-! ### Bit-mask arithmetic helpers -/

theorem and_mask_2047 (x : Nat) : x &&& 2047 = x % 2048 := by
  have h := Nat.and_pow_two_sub_one_eq_mod x 11
  norm_num at h
  exact h

theorem and_mask_255 (x : Nat) : x &&& 255 = x % 256 := by
  have h := Nat.and_pow_two_sub_one_eq_mod x 8
  norm_num at h
  exact h

theorem and_mask_3 (x : Nat) : x &&& 3 = x % 4 := by
  have h := Nat.and_pow_two_sub_one_eq_mod x 2
  norm_num at h
  exact h

set_option maxRecDepth 8192 in
theorem lor_low8_fin : ∀ (a : Fin 256) (b : Fin 4),
    a.val ||| (b.val <<< 8) = a.val + 256 * b.val := by decide

theorem lor_low8 (a b : Nat) (ha : a < 256) (hb : b < 4) :
    a ||| (b <<< 8) = a + 256 * b :=
  lor_low8_fin ⟨a, ha⟩ ⟨b, hb⟩

/-! ### C8 — length-check law -/

set_option maxRecDepth 8192 in
theorem length_check_inj_aux : ∀ a : Fin 85, ∀ b : Fin 85,
    mb_frame_length_check a.val = mb_frame_length_check b.val → a = b := by decide

/-- C8 counterexample: `mb_frame_length_check` is not injective on 0..127;
the length values 0 and 85 produce the same `length_check` byte. -/
theorem length_check_not_injective :
    mb_frame_length_check 85 = mb_frame_length_check 0 ∧ (85 : Nat) ≠ 0 := by decide

/-- C8 (amended): for every length field value `L` in 0..127,
`mb_frame_length_check L` equals `((L * 0xD8D9) >>> 11) &&& 0xFF` in unsigned
32-bit arithmetic; the function is injective on 0..84, but values `L` and
`L + 85` collide, so it is not injective on all of 0..127. -/
theorem length_check_law (L a b : Nat) (hL : L < 128) (ha : a < 85) (hb : b < 85) :
    mb_frame_length_check L = ((L * 0xd8d9) >>> 11) &&& 0xFF ∧
    (mb_frame_length_check a = mb_frame_length_check b → a = b) := by
  constructor
  · show (((L % 256) * 0xd8d9) >>> 11) % 256 = _
    rw [Nat.mod_eq_of_lt (by omega : L < 256)]
    rw [show (0xFF : Nat) = 255 from rfl, and_mask_255]
  · intro h
    have := length_check_inj_aux ⟨a, ha⟩ ⟨b, hb⟩ h
    exact congrArg Fin.val this

/-- Witness for C8 at `L = 127`, `a = 3`, `b = 5`. -/
theorem length_check_law_witness :
    mb_frame_length_check 127 = ((127 * 0xd8d9) >>> 11) &&& 0xFF ∧
    (mb_frame_length_check 3 = mb_frame_length_check 5 → 3 = 5) :=
  length_check_law 127 3 5 (by decide) (by decide) (by decide)

/-! ### C9 — encoder failure atomicity -/

/-- C9 counterexample: the C `msg_alloc_send_to_device` takes its length as
a `uint8_t`, so a requested length of 257 words is truncated to 1 at the
call: allocation succeeds, one frame message is queued, and `out_frame_id`
advances — refuting "length greater than 125 returns NULL, queues nothing,
and leaves the counter unchanged". -/
theorem encoder_truncation_counterexample :
    (257 : Nat) > 125 ∧
    msg_alloc_send_to_device 7 3 257 9 ≠ none ∧
    (send_to_device 7 3 9 (List.replicate 257 5) 257).1.length = 1 ∧
    (send_to_device 7 3 9 (List.replicate 257 5) 257).2 = (7 + 1) % 2048 := by
  refine ⟨by decide, by decide, ?_, by decide⟩
  rfl

/-- C9 (amended): the requested length is first truncated to its low 8 bits
(the allocator's `uint8_t` parameter).  If the truncated length is 0 or more
than 125, allocation returns NULL, nothing is queued, and `out_frame_id` is
unchanged; if it is in 1..125, exactly one frame message is produced and
`out_frame_id` advances by exactly 1 modulo 2048. -/
theorem encoder_atomicity (out_frame_id service_type metadata length_u32 : Nat)
    (data : List Nat) :
    ((length_u32 % 256 = 0 ∨ length_u32 % 256 > 125) →
      msg_alloc_send_to_device out_frame_id service_type length_u32 metadata = none ∧
      send_to_device out_frame_id service_type metadata data length_u32 = ([], out_frame_id)) ∧
    (1 ≤ length_u32 % 256 → length_u32 % 256 ≤ 125 →
      ∃ f, send_to_device out_frame_id service_type metadata data length_u32 =
        ([f], (out_frame_id + 1) % 2048)) := by
  constructor
  · intro h
    have hcond : length_u32 % 256 = 0 ∨ length_u32 % 256 > PAYLOAD_SIZE_MAX_U32 := h
    constructor
    · simp [msg_alloc_send_to_device, hcond]
    · simp [send_to_device, msg_alloc_send_to_device, hcond]
  · intro h1 h2
    have hcond : ¬(length_u32 % 256 = 0 ∨ length_u32 % 256 > PAYLOAD_SIZE_MAX_U32) := by
      rw [show PAYLOAD_SIZE_MAX_U32 = 125 from rfl]
      omega
    have hmask : (out_frame_id + 1) &&& MB_FRAMER_FRAME_ID_MAX = (out_frame_id + 1) % 2048 := by
      rw [show MB_FRAMER_FRAME_ID_MAX = 2047 from rfl, and_mask_2047]
    simp only [send_to_device, msg_alloc_send_to_device, if_neg hcond, hmask]
    exact ⟨_, rfl⟩

/-- Witness for C9 (amended) at `length_u32 = 130` (truncated length 130,
failure side) and `length_u32 = 257` (truncated length 1, success side),
with `out_frame_id = 7`. -/
theorem encoder_atomicity_witness :
    ((130 % 256 = 0 ∨ 130 % 256 > 125) →
      msg_alloc_send_to_device 7 3 130 9 = none ∧
      send_to_device 7 3 9 (List.replicate 130 5) 130 = ([], 7)) ∧
    (1 ≤ 257 % 256 → 257 % 256 ≤ 125 →
      ∃ f, send_to_device 7 3 9 (List.replicate 257 5) 257 = ([f], (7 + 1) % 2048)) :=
  ⟨(encoder_atomicity 7 3 9 130 (List.replicate 130 5)).1,
   (encoder_atomicity 7 3 9 257 (List.replicate 257 5)).2⟩

/-! ### Frame byte-access helpers -/

theorem frame_getD_0 (a0 a1 a2 a3 a4 a5 a6 a7 : Nat) (r : List Nat) :
    (a0 :: a1 :: a2 :: a3 :: a4 :: a5 :: a6 :: a7 :: r).getD 0 0 = a0 := rfl

theorem frame_getD_1 (a0 a1 a2 a3 a4 a5 a6 a7 : Nat) (r : List Nat) :
    (a0 :: a1 :: a2 :: a3 :: a4 :: a5 :: a6 :: a7 :: r).getD 1 0 = a1 := rfl

theorem frame_getD_2 (a0 a1 a2 a3 a4 a5 a6 a7 : Nat) (r : List Nat) :
    (a0 :: a1 :: a2 :: a3 :: a4 :: a5 :: a6 :: a7 :: r).getD 2 0 = a2 := rfl

theorem frame_getD_3 (a0 a1 a2 a3 a4 a5 a6 a7 : Nat) (r : List Nat) :
    (a0 :: a1 :: a2 :: a3 :: a4 :: a5 :: a6 :: a7 :: r).getD 3 0 = a3 := rfl

theorem frame_getD_4 (a0 a1 a2 a3 a4 a5 a6 a7 : Nat) (r : List Nat) :
    (a0 :: a1 :: a2 :: a3 :: a4 :: a5 :: a6 :: a7 :: r).getD 4 0 = a4 := rfl

theorem frame_getD_5 (a0 a1 a2 a3 a4 a5 a6 a7 : Nat) (r : List Nat) :
    (a0 :: a1 :: a2 :: a3 :: a4 :: a5 :: a6 :: a7 :: r).getD 5 0 = a5 := rfl

theorem frame_getD_6 (a0 a1 a2 a3 a4 a5 a6 a7 : Nat) (r : List Nat) :
    (a0 :: a1 :: a2 :: a3 :: a4 :: a5 :: a6 :: a7 :: r).getD 6 0 = a6 := rfl

theorem frame_getD_7 (a0 a1 a2 a3 a4 a5 a6 a7 : Nat) (r : List Nat) :
    (a0 :: a1 :: a2 :: a3 :: a4 :: a5 :: a6 :: a7 :: r).getD 7 0 = a7 := rfl

theorem frame_drop_8 (a0 a1 a2 a3 a4 a5 a6 a7 : Nat) (r : List Nat) :
    (a0 :: a1 :: a2 :: a3 :: a4 :: a5 :: a6 :: a7 :: r).drop 8 = r := rfl

/-- An untruncated frame message (word count below 256) spans the whole
header/payload/footer buffer. -/
theorem frame_take_all (a0 a1 a2 a3 a4 a5 a6 a7 : Nat) (ws : List Nat) :
    ([a0, a1, a2, a3, a4, a5, a6, a7] ++ words_to_bytes ws ++ u32_bytes 0).take
        (4 * ws.length + 12) =
      [a0, a1, a2, a3, a4, a5, a6, a7] ++ words_to_bytes ws ++ u32_bytes 0 := by
  refine List.take_of_length_le ?_
  simp only [List.length_append, List.length_cons, List.length_nil,
    words_to_bytes_length, u32_bytes]
  omega

/-- Decoding a well-formed encoded data frame: full characterization of
`handle_stream_in_frame` on the encoder's output. -/
theorem decode_of_encoded (service metadata fid in_id cnt : Nat) (ws : List Nat)
    (hs1 : 1 ≤ service) (hs4 : service ≤ 4) (hm : metadata < 65536)
    (hw : ∀ w ∈ ws, w < 4294967296) (hl1 : 1 ≤ ws.length) (hl2 : ws.length ≤ 125)
    (hid : fid < 2048) :
    handle_stream_in_frame in_id cnt
      ([MB_FRAMER_SOF1, service, fid % 256, fid / 256, ws.length - 1,
        mb_frame_length_check (ws.length - 1), metadata % 256, metadata / 256] ++
        words_to_bytes ws ++ u32_bytes 0) =
      ⟨.dispatch service metadata ws, (fid + 1) % 2048, cnt + 1, fid,
       decide (in_id ≠ fid), false⟩ := by
  have hfr : fid % 256 + 256 * (fid / 256) = fid := by omega
  have hfid_and : fid &&& MB_FRAMER_FRAME_ID_MAX = fid := by
    rw [show MB_FRAMER_FRAME_ID_MAX = 2047 from rfl, and_mask_2047, Nat.mod_eq_of_lt hid]
  have hft : (fid / 256) >>> 3 = 0 := by
    rw [Nat.shiftRight_eq_div_pow]
    omega
  have hmeta : metadata % 256 + 256 * (metadata / 256) = metadata := by omega
  have hlen1 : ws.length - 1 + 1 = ws.length := by omega
  have htk : ((words_to_bytes ws ++ u32_bytes 0).take (4 * ws.length)) = words_to_bytes ws := by
    rw [← words_to_bytes_length ws]
    exact List.take_left _ _
  have hsof2 : service &&& MB_FRAMER_SOF2_MASK = MB_FRAMER_SOF2 := by
    interval_cases service <;> rfl
  have hsvc : service &&& 0x0F = service := by
    interval_cases service <;> rfl
  have hlc : (decide (mb_frame_length_check (ws.length - 1) ≠
      mb_frame_length_check (ws.length - 1)) : Bool) = false := by simp
  simp only [handle_stream_in_frame, List.cons_append, List.nil_append,
    frame_getD_0, frame_getD_1, frame_getD_2, frame_getD_3, frame_getD_4,
    frame_getD_5, frame_getD_6, frame_getD_7, frame_drop_8,
    hfr, hfid_and, hft, hmeta, hlen1, htk, hsof2, hsvc,
    bytes_to_words_of_words_to_bytes ws hw]
  rw [show ((fid + 1) &&& MB_FRAMER_FRAME_ID_MAX) = (fid + 1) % 2048 by
    rw [show MB_FRAMER_FRAME_ID_MAX = 2047 from rfl, and_mask_2047]]
  simp only [MB_FRAMER_SOF1, MB_FRAMER_SOF2, MB_FRAMER_SOF2_MASK,
    MB_FRAME_FT_DATA, MB_FRAME_FT_ACK_ALL, MB_FRAME_FT_ACK_ONE,
    MB_FRAME_FT_NACK_FRAME_ID, MB_FRAME_FT_RESERVED, MB_FRAME_FT_CONTROL,
    MB_FRAME_ST_INVALID, MB_FRAME_ST_LINK, MB_FRAME_ST_TRACE,
    MB_FRAME_ST_PUBSUB, MB_FRAME_ST_COMM_THROUGHPUT, hlc]
  interval_cases service <;> simp

/-- C1: encoding a data frame with `msg_alloc_send_to_device` /
`send_to_device` and decoding it with `handle_stream_in_frame` recovers the
service type, metadata, and payload words; the encoded `frame_id` equals the
encoder's `out_frame_id` at call time, and the `length_check` field verifies
against the `length` field. -/
theorem codec_round_trip (service metadata out_frame_id in_id cnt : Nat)
    (ws : List Nat)
    (hs1 : 1 ≤ service) (hs4 : service ≤ 4) (hm : metadata < 65536)
    (hw : ∀ w ∈ ws, w < 4294967296) (hl1 : 1 ≤ ws.length) (hl2 : ws.length ≤ 125)
    (hid : out_frame_id < 2048) :
    ∃ f, send_to_device out_frame_id service metadata ws ws.length =
        ([f], (out_frame_id + 1) % 2048) ∧
      (handle_stream_in_frame in_id cnt f).action = .dispatch service metadata ws ∧
      (handle_stream_in_frame in_id cnt f).rx_frame_id = out_frame_id ∧
      (handle_stream_in_frame in_id cnt f).length_check_mismatch = false := by
  have hmod : ws.length % 256 = ws.length := Nat.mod_eq_of_lt (by omega)
  have hcond : ¬(ws.length % 256 = 0 ∨ ws.length % 256 > PAYLOAD_SIZE_MAX_U32) := by
    rw [hmod, show PAYLOAD_SIZE_MAX_U32 = 125 from rfl]
    omega
  have hcond2 : ¬(ws.length = 0 ∨ ws.length > PAYLOAD_SIZE_MAX_U32) := by
    rw [show PAYLOAD_SIZE_MAX_U32 = 125 from rfl]
    omega
  have hfid16 : (MB_FRAME_FT_DATA <<< 11) ||| (out_frame_id &&& MB_FRAMER_FRAME_ID_MAX) =
      out_frame_id := by
    rw [show MB_FRAMER_FRAME_ID_MAX = 2047 from rfl, and_mask_2047,
      Nat.mod_eq_of_lt hid, show MB_FRAME_FT_DATA = 0 from rfl]
    simp
  have hserv_byte : (MB_FRAMER_SOF2 ||| service) % 256 = service := by
    rw [show MB_FRAMER_SOF2 = 0 from rfl, Nat.zero_or, Nat.mod_eq_of_lt (by omega)]
  have hb3 : out_frame_id / 256 % 256 = out_frame_id / 256 := Nat.mod_eq_of_lt (by omega)
  have hb4 : (ws.length - 1) % 256 = ws.length - 1 := Nat.mod_eq_of_lt (by omega)
  have hb7 : metadata / 256 % 256 = metadata / 256 := Nat.mod_eq_of_lt (by omega)
  have hmask : (out_frame_id + 1) &&& MB_FRAMER_FRAME_ID_MAX = (out_frame_id + 1) % 2048 := by
    rw [show MB_FRAMER_FRAME_ID_MAX = 2047 from rfl, and_mask_2047]
  have hdec := decode_of_encoded service metadata out_frame_id in_id cnt ws
    hs1 hs4 hm hw hl1 hl2 hid
  refine ⟨[MB_FRAMER_SOF1, service, out_frame_id % 256, out_frame_id / 256,
      ws.length - 1, mb_frame_length_check (ws.length - 1), metadata % 256,
      metadata / 256] ++ words_to_bytes ws ++ u32_bytes 0, ?_, ?_, ?_, ?_⟩
  · simp only [send_to_device, msg_alloc_send_to_device, if_neg hcond, hmod,
      if_neg hcond2, hfid16, hserv_byte, hb3, hb4, hb7, hmask, List.take_length,
      frame_take_all]
  · rw [hdec]
  · rw [hdec]
  · rw [hdec]

/-- Witness for C1 at service 3, metadata 0x1234, one payload word, encoder
counter 2047 (wrap case). -/
theorem codec_round_trip_witness :
    ∃ f, send_to_device 2047 3 0x1234 [99] (List.length [99]) =
        ([f], (2047 + 1) % 2048) ∧
      (handle_stream_in_frame 5 0 f).action = .dispatch 3 0x1234 [99] ∧
      (handle_stream_in_frame 5 0 f).rx_frame_id = 2047 ∧
      (handle_stream_in_frame 5 0 f).length_check_mismatch = false :=
  codec_round_trip 3 0x1234 2047 5 0 [99] (by decide) (by decide) (by decide)
    (by intro w hw; simp at hw; omega) (by decide) (by decide) (by decide)

/-- C2: for a received data frame (SOF checks pass, frame type is data), the
decoder exposes the received `frame_id`, logs a gap exactly when it differs
from the expected `in_frame_id`, resynchronizes `in_frame_id` to
`(received + 1) mod 2048` in all cases (so it stays in 0..2047), and the
frame disposition — including the payload dispatch to the service handler —
does not depend on the expected `in_frame_id` (the payload is never
dropped). -/
theorem frame_id_tracking (in_id in_id2 cnt : Nat) (bytes : List Nat)
    (h0 : bytes.getD 0 0 = MB_FRAMER_SOF1)
    (h1 : bytes.getD 1 0 &&& MB_FRAMER_SOF2_MASK = MB_FRAMER_SOF2)
    (h3 : bytes.getD 3 0 >>> 3 = MB_FRAME_FT_DATA) :
    (handle_stream_in_frame in_id cnt bytes).rx_frame_id =
      (bytes.getD 2 0 + 256 * bytes.getD 3 0) &&& MB_FRAMER_FRAME_ID_MAX ∧
    (handle_stream_in_frame in_id cnt bytes).gap_logged =
      decide (in_id ≠ (handle_stream_in_frame in_id cnt bytes).rx_frame_id) ∧
    (handle_stream_in_frame in_id cnt bytes).in_frame_id =
      ((handle_stream_in_frame in_id cnt bytes).rx_frame_id + 1) % 2048 ∧
    (handle_stream_in_frame in_id cnt bytes).in_frame_id < 2048 ∧
    (handle_stream_in_frame in_id cnt bytes).action =
      (handle_stream_in_frame in_id2 cnt bytes).action := by
  have hmask : ∀ x : Nat, (x + 1) &&& MB_FRAMER_FRAME_ID_MAX = (x + 1) % 2048 := by
    intro x
    rw [show MB_FRAMER_FRAME_ID_MAX = 2047 from rfl, and_mask_2047]
  simp only [handle_stream_in_frame, h0, h1, h3]
  simp only [MB_FRAMER_SOF1, MB_FRAMER_SOF2, MB_FRAMER_SOF2_MASK,
    MB_FRAME_FT_DATA, MB_FRAME_FT_ACK_ALL, MB_FRAME_FT_ACK_ONE,
    MB_FRAME_FT_NACK_FRAME_ID, MB_FRAME_FT_RESERVED, MB_FRAME_FT_CONTROL]
  norm_num [hmask]
  exact Nat.mod_lt _ (by norm_num)

/-- Witness for C2: a concrete pubsub data frame with `frame_id` 4 received
while expecting 3 (frame-id gap), compared against expecting 9. -/
theorem frame_id_tracking_witness :
    (handle_stream_in_frame 3 0 frame_id_tracking_witness_bytes).rx_frame_id =
      (frame_id_tracking_witness_bytes.getD 2 0 +
        256 * frame_id_tracking_witness_bytes.getD 3 0) &&& MB_FRAMER_FRAME_ID_MAX ∧
    (handle_stream_in_frame 3 0 frame_id_tracking_witness_bytes).gap_logged =
      decide (3 ≠ (handle_stream_in_frame 3 0 frame_id_tracking_witness_bytes).rx_frame_id) ∧
    (handle_stream_in_frame 3 0 frame_id_tracking_witness_bytes).in_frame_id =
      ((handle_stream_in_frame 3 0 frame_id_tracking_witness_bytes).rx_frame_id + 1) % 2048 ∧
    (handle_stream_in_frame 3 0 frame_id_tracking_witness_bytes).in_frame_id < 2048 ∧
    (handle_stream_in_frame 3 0 frame_id_tracking_witness_bytes).action =
      (handle_stream_in_frame 9 0 frame_id_tracking_witness_bytes).action :=
  frame_id_tracking 3 9 0 frame_id_tracking_witness_bytes
    (by decide) (by decide) (by decide)

/-! ### C10 — pubsub publish padding -/

/-- C10 counterexample: the word count computed by `publish_to_device` is
truncated to the allocator's `uint8_t` parameter, so a 993-byte binary value
(word count 257, truncated to 1) emits a frame whose `length` field is 0,
not `ceil((32 + max(993, 8)) / 4) - 1 = 256` — the emitted frame's payload
byte length does not reflect `32 + max(value size, 8)`. -/
theorem pubsub_padding_truncation_counterexample :
    (publish_to_device 0 [115] ⟨JSDRV_UNION_BIN, 993, List.replicate 993 7⟩).1.length = 1 ∧
    (((publish_to_device 0 [115] ⟨JSDRV_UNION_BIN, 993, List.replicate 993 7⟩).1).getD 0
        []).getD 4 0 = 0 ∧
    (MB_TOPIC_SIZE_MAX + max 993 8 + 3) / 4 - 1 = 256 ∧
    (((publish_to_device 0 [115] ⟨JSDRV_UNION_BIN, 993, List.replicate 993 7⟩).1).getD 0
        []).getD 4 0 ≠ (MB_TOPIC_SIZE_MAX + max 993 8 + 3) / 4 - 1 := by
  refine ⟨rfl, rfl, by decide, by decide⟩

/-- C10 (amended): every pubsub frame built by `publish_to_device` pads the
value size up to 8 bytes, giving a padded payload byte length of
`32 + max(value size, 8)`; the metadata bits [9:8] (byte 7 of the frame, low
two bits) always carry the low 2 bits of that padded length — in particular
they are 0 for every value smaller than 8 bytes, from the padded 40-byte
length — but the frame's `length` field is the padded word count truncated
to the allocator's `uint8_t` parameter, minus 1; it equals
`ceil((32 + max(size, 8)) / 4) - 1` only when the padded value fits a frame
(value size at most 468). -/
theorem pubsub_publish_padding (out_frame_id : Nat) (topic : List Nat)
    (value : UnionValue) (f : List Nat) (fid' : Nat)
    (h : publish_to_device out_frame_id topic value = ([f], fid')) :
    f.getD 4 0 = ((MB_TOPIC_SIZE_MAX + max value.size 8 + 3) / 4) % 256 - 1 ∧
    (value.size ≤ 468 →
      f.getD 4 0 = (MB_TOPIC_SIZE_MAX + max value.size 8 + 3) / 4 - 1) ∧
    f.getD 7 0 &&& 3 = (MB_TOPIC_SIZE_MAX + max value.size 8) % 4 ∧
    (value.size < 8 → f.getD 7 0 &&& 3 = 0) := by
  have hpad : (if value.size < 8 then 8 else value.size) = max value.size 8 := by
    split <;> omega
  have hshift : ∀ x : Nat, x >>> 2 = x / 4 := by
    intro x
    rw [Nat.shiftRight_eq_div_pow]
  unfold publish_to_device at h
  simp only [hpad, hshift] at h
  by_cases hc : ((MB_TOPIC_SIZE_MAX + max value.size 8 + 3) / 4 % 256 = 0 ∨
      (MB_TOPIC_SIZE_MAX + max value.size 8 + 3) / 4 % 256 > PAYLOAD_SIZE_MAX_U32)
  · rw [msg_alloc_send_to_device, if_pos hc] at h
    simp at h
  · rw [msg_alloc_send_to_device, if_neg hc] at h
    simp only [Prod.mk.injEq, List.cons.injEq, and_true, List.cons_append,
      List.nil_append] at h
    obtain ⟨hf, -⟩ := h
    have hmeta : (value.type &&& 0x00ff) |||
        ((MB_TOPIC_SIZE_MAX + max value.size 8) &&& 0x0003) <<< 8 =
        (value.type &&& 255) + 256 * ((MB_TOPIC_SIZE_MAX + max value.size 8) % 4) := by
      rw [show ((MB_TOPIC_SIZE_MAX + max value.size 8) &&& 0x0003) =
        (MB_TOPIC_SIZE_MAX + max value.size 8) % 4 from and_mask_3 _]
      exact lor_low8 _ _ (Nat.lt_succ_of_le Nat.and_le_right) (Nat.mod_lt _ (by norm_num))
    have htype : value.type &&& 255 < 256 := Nat.lt_succ_of_le Nat.and_le_right
    have hmod4 : (MB_TOPIC_SIZE_MAX + max value.size 8) % 4 < 4 :=
      Nat.mod_lt _ (by norm_num)
    subst hf
    refine ⟨?_, ?_, ?_, ?_⟩
    · rw [frame_getD_4]
      exact Nat.mod_eq_of_lt (by omega)
    · intro hsz
      have h125 : (MB_TOPIC_SIZE_MAX + max value.size 8 + 3) / 4 ≤ 125 := by
        rw [show MB_TOPIC_SIZE_MAX = 32 from rfl]
        omega
      have hid : (MB_TOPIC_SIZE_MAX + max value.size 8 + 3) / 4 % 256 =
          (MB_TOPIC_SIZE_MAX + max value.size 8 + 3) / 4 :=
        Nat.mod_eq_of_lt (by omega)
      rw [frame_getD_4, hid, Nat.mod_eq_of_lt (by omega)]
    · rw [frame_getD_7, hmeta]
      rw [show ((value.type &&& 255) + 256 * ((MB_TOPIC_SIZE_MAX + max value.size 8) % 4))
          / 256 % 256 = (MB_TOPIC_SIZE_MAX + max value.size 8) % 4 by omega]
      rw [and_mask_3]
      omega
    · intro hsmall
      rw [frame_getD_7, hmeta]
      rw [show ((value.type &&& 255) + 256 * ((MB_TOPIC_SIZE_MAX + max value.size 8) % 4))
          / 256 % 256 = (MB_TOPIC_SIZE_MAX + max value.size 8) % 4 by omega]
      rw [and_mask_3]
      have : max value.size 8 = 8 := by omega
      rw [this]
      rfl

/-- The concrete pubsub publish of C10's witness: a 5-byte string value. -/
def pubsub_padding_witness_value : UnionValue :=
  { type := JSDRV_UNION_STR, size := 5, bin := [116, 114, 117, 101, 0] }

/-- The frame produced by the witness publish (topic "s/i/ctrl"). -/
def pubsub_padding_witness_frame : List Nat :=
  ((publish_to_device 1 [115, 47, 105, 47, 99, 116, 114, 108]
    pubsub_padding_witness_value).1).getD 0 []

/-- Witness for C10 (amended): publishing a 5-byte string pads to 8 value
bytes (40-byte payload, metadata size bits 0, length field 9). -/
theorem pubsub_publish_padding_witness :
    pubsub_padding_witness_frame.getD 4 0 =
      ((MB_TOPIC_SIZE_MAX + max pubsub_padding_witness_value.size 8 + 3) / 4) % 256 - 1 ∧
    (pubsub_padding_witness_value.size ≤ 468 →
      pubsub_padding_witness_frame.getD 4 0 =
        (MB_TOPIC_SIZE_MAX + max pubsub_padding_witness_value.size 8 + 3) / 4 - 1) ∧
    pubsub_padding_witness_frame.getD 7 0 &&& 3 =
      (MB_TOPIC_SIZE_MAX + max pubsub_padding_witness_value.size 8) % 4 ∧
    (pubsub_padding_witness_value.size < 8 →
      pubsub_padding_witness_frame.getD 7 0 &&& 3 = 0) :=
  pubsub_publish_padding 1 [115, 47, 105, 47, 99, 116, 114, 108]
    pubsub_padding_witness_value pubsub_padding_witness_frame 2 (by rfl)

/-! ### C4 — ll-close exit invariant -/

/-- C4: evaluating the global transition table first and the ll-close
per-state table second, any transition that fires while the machine is in
`ll-close` lands in `closed` or `finalized`; when nothing fires the machine
stays in `ll-close`.  No other state is reachable from `ll-close` in one
step. -/
theorem ll_close_exit (d : MbDev) (ev : Nat) (h : d.state = ST_LL_CLOSE) :
    (state_machine_fires d ev = true →
      (state_machine_process d ev).1.state = ST_CLOSED ∨
      (state_machine_process d ev).1.state = ST_FINALIZED) ∧
    (state_machine_fires d ev = false →
      (state_machine_process d ev).1.state = ST_LL_CLOSE) := by
  by_cases h3 : ev = EV_RESET
  · subst h3
    constructor <;> intro hf <;>
      simp_all [state_machine_fires, state_machine_process, transitions_evaluate,
        state_machine_transitions, state_machine_global, state_machine_ll_close,
        sm_fn_eval, state_transition, sm_on_enter, ST_INVALID, ST_NOT_PRESENT,
        ST_CLOSED, ST_LL_OPEN, ST_LL_BULK_OPEN, ST_LINK_RESET, ST_OPEN,
        ST_PUBSUB_FLUSH, ST_LINK_DISCONNECT, ST_LL_CLOSE_PEND, ST_LL_CLOSE,
        ST_FINALIZED, EV_RESET, EV_BACKEND_CLOSE_ACK]
  · by_cases h14 : ev = EV_BACKEND_CLOSE_ACK
    · subst h14
      rcases hb : d.finalize_pending <;>
        constructor <;> intro hf <;>
        simp_all [state_machine_fires, state_machine_process, transitions_evaluate,
          state_machine_transitions, state_machine_global, state_machine_ll_close,
          sm_fn_eval, state_transition, sm_on_enter, ST_INVALID, ST_NOT_PRESENT,
          ST_CLOSED, ST_LL_OPEN, ST_LL_BULK_OPEN, ST_LINK_RESET, ST_OPEN,
          ST_PUBSUB_FLUSH, ST_LINK_DISCONNECT, ST_LL_CLOSE_PEND, ST_LL_CLOSE,
          ST_FINALIZED, EV_RESET, EV_BACKEND_CLOSE_ACK]
    · have e3 : (EV_RESET = ev) = False := by
        simp only [EV_RESET, eq_iff_iff, iff_false]
        exact fun hh => h3 hh.symm
      have e14 : (EV_BACKEND_CLOSE_ACK = ev) = False := by
        simp only [EV_BACKEND_CLOSE_ACK, eq_iff_iff, iff_false]
        exact fun hh => h14 hh.symm
      constructor <;> intro hf <;>
        simp_all [state_machine_fires, state_machine_process, transitions_evaluate,
          state_machine_transitions, state_machine_global, state_machine_ll_close,
          sm_fn_eval, state_transition, sm_on_enter, ST_INVALID, ST_NOT_PRESENT,
          ST_CLOSED, ST_LL_OPEN, ST_LL_BULK_OPEN, ST_LINK_RESET, ST_OPEN,
          ST_PUBSUB_FLUSH, ST_LINK_DISCONNECT, ST_LL_CLOSE_PEND, ST_LL_CLOSE,
          ST_FINALIZED, EV_RESET, EV_BACKEND_CLOSE_ACK]

/-- Witness for C4: `backend-close-ack` in `ll-close` (not finalizing). -/
theorem ll_close_exit_witness :
    (state_machine_fires ⟨ST_LL_CLOSE, false, 0⟩ EV_BACKEND_CLOSE_ACK = true →
      (state_machine_process ⟨ST_LL_CLOSE, false, 0⟩ EV_BACKEND_CLOSE_ACK).1.state = ST_CLOSED ∨
      (state_machine_process ⟨ST_LL_CLOSE, false, 0⟩ EV_BACKEND_CLOSE_ACK).1.state = ST_FINALIZED) ∧
    (state_machine_fires ⟨ST_LL_CLOSE, false, 0⟩ EV_BACKEND_CLOSE_ACK = false →
      (state_machine_process ⟨ST_LL_CLOSE, false, 0⟩ EV_BACKEND_CLOSE_ACK).1.state = ST_LL_CLOSE) :=
  ll_close_exit ⟨ST_LL_CLOSE, false, 0⟩ EV_BACKEND_CLOSE_ACK rfl

/-! ### C6 — suppression matrix boundary -/

/-- C6 counterexample: the `from = 7` (off) column of both suppression
matrices is not zero — `M[0][7] = 6` and `N[0][7] = 8` — so a transition
from range 7 (off) to range 0 selects a nonzero suppression window. -/
theorem suppress_matrix_from_off_nonzero :
    matrix_entry SUPPRESS_MATRIX_M 0 7 = 6 ∧ matrix_entry SUPPRESS_MATRIX_N 0 7 = 8 ∧
    ¬(matrix_entry SUPPRESS_MATRIX_M 0 7 = 0) ∧
    ¬(matrix_entry SUPPRESS_MATRIX_N 0 7 = 0) := by decide

/-- C6 (amended): in both suppression matrices every entry with
`to ∈ {7, 8}` is zero and every entry with `from = 8` is zero; the `from = 7`
(off) column, however, is nonzero for every `to ≤ 6`. -/
theorem suppress_matrix_boundary (t f : Fin 9)
    (h : t.val = 7 ∨ t.val = 8 ∨ f.val = 8) :
    matrix_entry SUPPRESS_MATRIX_M t.val f.val = 0 ∧
    matrix_entry SUPPRESS_MATRIX_N t.val f.val = 0 := by
  revert h
  revert t f
  decide

/-- Witness for C6 at `to = 7`, `from = 2`. -/
theorem suppress_matrix_boundary_witness :
    matrix_entry SUPPRESS_MATRIX_M 7 2 = 0 ∧ matrix_entry SUPPRESS_MATRIX_N 7 2 = 0 :=
  suppress_matrix_boundary 7 2 (Or.inl rfl)

/-! ### C3 — graceful close sequence -/

/-- C3 evaluation: from `open`, api-close enters `pubsub-flush` and publishes
the sentinel; but the echoed pong on a `/./!pong` topic carrying the string
"h|disconnect" does NOT raise `EV_PUBSUB_FLUSH` — `handle_in_pubsub` raises
it only when `jsdrv_cstr_casecmp` is nonzero, i.e. when the value DIFFERS
from the sentinel — so the pong is forwarded to the broker, the machine
stays in `pubsub-flush`, no disconnect-request control frame is ever
emitted, and the remaining events of the claimed sequence fire nothing.  A
pong whose value differs from the sentinel (last conjunct) does advance the
machine, confirming the inverted comparison. -/
theorem graceful_close_pong_inverted :
    state_machine_process ⟨ST_OPEN, false, 0⟩ EV_API_CLOSE_REQUEST =
      (⟨ST_PUBSUB_FLUSH, false, 0⟩,
        [.publish_dev topic_pubsub_flush_ping PUBSUB_DISCONNECT_STR]) ∧
    handle_in_pubsub ⟨ST_PUBSUB_FLUSH, false, 0⟩ mb_prefix_u0 288 pong_payload_bytes 12 =
      (⟨ST_PUBSUB_FLUSH, false, 0⟩,
        [.broker_msg (mb_prefix_u0 ++ [47] ++ [46, 47, 46, 47, 33, 112, 111, 110, 103])
          (PUBSUB_DISCONNECT_STR ++ [0])]) ∧
    state_machine_process ⟨ST_PUBSUB_FLUSH, false, 0⟩ EV_LINK_DISCONNECT_ACK =
      (⟨ST_PUBSUB_FLUSH, false, 0⟩, []) ∧
    state_machine_process ⟨ST_PUBSUB_FLUSH, false, 0⟩ EV_ADVANCE =
      (⟨ST_PUBSUB_FLUSH, false, 0⟩, []) ∧
    state_machine_process ⟨ST_PUBSUB_FLUSH, false, 0⟩ EV_BACKEND_CLOSE_ACK =
      (⟨ST_PUBSUB_FLUSH, false, 0⟩, []) ∧
    ST_PUBSUB_FLUSH ≠ ST_CLOSED ∧
    handle_in_pubsub ⟨ST_PUBSUB_FLUSH, false, 0⟩ mb_prefix_u0 288 pong_payload_bytes_x 12 =
      (⟨ST_LINK_DISCONNECT, false, 0⟩, [.ctrl_frame MB_FRAME_CTRL_DISCONNECT_REQ]) := by
  decide

/-! ### C5 — suppressor warm-up and delay -/

theorem and_mask_31 (x : Nat) : x &&& SUPPRESS_SAMPLES_MASK = x % 32 := by
  have h := Nat.and_pow_two_sub_one_eq_mod x 5
  norm_num at h
  rw [show SUPPRESS_SAMPLES_MASK = 31 from rfl]
  exact h

/-- State fields after one `js110_sp_process` step. -/
theorem js110_sp_process_snd (st : js110_sp_s) (u vr : Nat) :
    ((js110_sp_process st u vr).2).sample_count = st.sample_count + 1 ∧
    ((js110_sp_process st u vr).2).head = (st.head + 1) % 32 ∧
    ((js110_sp_process st u vr).2).cal = st.cal ∧
    ((js110_sp_process st u vr).2).samples =
      Function.update st.samples st.head (js110_sp_process_sample st.cal u vr) := by
  simp only [js110_sp_process]
  split <;> simp [and_mask_31]

/-- The sample returned by one `js110_sp_process` step. -/
theorem js110_sp_process_fst (st : js110_sp_s) (u vr : Nat) :
    (js110_sp_process st u vr).1 =
      if st.sample_count + 1 ≥ SUPPRESS_SAMPLES_MASK then
        Function.update st.samples st.head (js110_sp_process_sample st.cal u vr)
          ((st.head + 1) % 32)
      else SAMPLE_MISSING := by
  simp only [js110_sp_process]
  split
  · rw [and_mask_31]
  · rfl

theorem js110_sp_state_after_append (st : js110_sp_s) (xs : List (Nat × Nat))
    (x : Nat × Nat) :
    js110_sp_state_after st (xs ++ [x]) =
      (js110_sp_process (js110_sp_state_after st xs) x.1 x.2).2 := by
  simp [js110_sp_state_after, List.foldl_append]

theorem js110_sp_run_append (st : js110_sp_s) (xs : List (Nat × Nat)) (x : Nat × Nat) :
    js110_sp_run st (xs ++ [x]) =
      js110_sp_run st xs ++
        [(js110_sp_process (js110_sp_state_after st xs) x.1 x.2).1] := by
  induction xs generalizing st with
  | nil =>
    obtain ⟨u, vr⟩ := x
    simp [js110_sp_run, js110_sp_state_after]
  | cons y ys ih =>
    obtain ⟨u, vr⟩ := y
    have e1 : js110_sp_run st (((u, vr) :: ys) ++ [x]) =
        (js110_sp_process st u vr).1 ::
          js110_sp_run (js110_sp_process st u vr).2 (ys ++ [x]) := rfl
    have e2 : js110_sp_run st ((u, vr) :: ys) =
        (js110_sp_process st u vr).1 ::
          js110_sp_run (js110_sp_process st u vr).2 ys := rfl
    have e3 : js110_sp_state_after st ((u, vr) :: ys) =
        js110_sp_state_after (js110_sp_process st u vr).2 ys := rfl
    rw [e1, e2, e3, ih]
    simp

/-- Ring-buffer characterization: after feeding `xs` from a freshly reset
state, the count is `xs.length`, the head is `xs.length % 32`, and slot `s`
holds the processed sample of the latest input that wrote it (`missing` if
none did). -/
theorem js110_sp_state_after_spec (st : js110_sp_s) (hc : st.sample_count = 0)
    (hh : st.head = 0) (hs : st.samples = fun _ => SAMPLE_MISSING)
    (xs : List (Nat × Nat)) :
    (js110_sp_state_after st xs).sample_count = xs.length ∧
    (js110_sp_state_after st xs).head = xs.length % 32 ∧
    (js110_sp_state_after st xs).cal = st.cal ∧
    ∀ s, s < 32 →
      (js110_sp_state_after st xs).samples s =
        if s < xs.length then
          js110_sp_process_sample st.cal
            (xs.getD (xs.length - 1 - ((xs.length - 1 - s) % 32)) (0, 0)).1
            (xs.getD (xs.length - 1 - ((xs.length - 1 - s) % 32)) (0, 0)).2
        else SAMPLE_MISSING := by
  induction xs using List.reverseRecOn with
  | nil =>
    refine ⟨hc, by simp [js110_sp_state_after, hh], rfl, ?_⟩
    intro s hs32
    simp [js110_sp_state_after, hs]
  | append_singleton ys y ih =>
    obtain ⟨hcnt, hhead, hcal, hsamp⟩ := ih
    rw [js110_sp_state_after_append]
    obtain ⟨p_cnt, p_head, p_cal, p_samp⟩ :=
      js110_sp_process_snd (js110_sp_state_after st ys) y.1 y.2
    refine ⟨?_, ?_, ?_, ?_⟩
    · rw [p_cnt, hcnt]
      simp
    · rw [p_head, hhead]
      simp only [List.length_append, List.length_cons, List.length_nil]
      omega
    · rw [p_cal, hcal]
    · intro s hs32
      rw [p_samp, hhead, hcal, Function.update_apply]
      simp only [List.length_append, List.length_cons, List.length_nil]
      by_cases hse : s = ys.length % 32
      · rw [if_pos hse]
        have hlt : s < ys.length + 0 + 1 := by omega
        rw [if_pos hlt]
        have hm0 : (ys.length - s) % 32 = 0 := by omega
        have hidx : ys.length + 0 + 1 - 1 - ((ys.length + 0 + 1 - 1 - s) % 32) =
            ys.length := by omega
        rw [hidx, List.getD_append_right _ _ _ _ (le_refl _)]
        simp
      · rw [if_neg hse]
        rw [hsamp s hs32]
        have hm0 : ¬((ys.length - s) % 32 = 0 ∧ s ≤ ys.length) := by
          intro ⟨h1, h2⟩
          exact hse (by omega)
        by_cases hlt : s < ys.length
        · have h1 : s < ys.length + 0 + 1 := by omega
          rw [if_pos hlt, if_pos h1]
          have hmm : (ys.length - s) % 32 ≠ 0 := by
            intro h0
            exact hm0 ⟨h0, by omega⟩
          have hidx : ys.length + 0 + 1 - 1 - ((ys.length + 0 + 1 - 1 - s) % 32) =
              ys.length - 1 - ((ys.length - 1 - s) % 32) := by omega
          have hlt2 : ys.length - 1 - ((ys.length - 1 - s) % 32) < ys.length := by omega
          rw [hidx, List.getD_append _ _ _ _ hlt2]
        · have hne : s ≠ ys.length := by
            intro h0
            exact hse (by omega)
          have h1 : ¬(s < ys.length + 0 + 1) := by omega
          rw [if_neg hlt, if_neg h1]

/-- Helper: `take (k+1)` appends the element at index `k`. -/
theorem take_succ_getD (l : List (Nat × Nat)) (k : Nat) (hk : k < l.length) :
    l.take (k + 1) = l.take k ++ [l.getD k (0, 0)] := by
  induction l generalizing k with
  | nil => simp at hk
  | cons a l ih =>
    cases k with
    | zero => simp [List.getD]
    | succ k =>
      simp only [List.length_cons, Nat.succ_lt_succ_iff] at hk
      simp only [List.take_succ_cons, List.getD_cons_succ, List.cons_append,
        List.cons.injEq, true_and]
      exact ih k hk

/-- C5 counterexample: with the `js110_sp_initialize` configuration
(`pre = 1`, `window = 0`, `post = 1`, so `pre + window + post + 1 = 3`),
the 4th call does not return the processed 1st input — it still returns
`SAMPLE_MISSING`, because the warm-up threshold in the code is
`_SUPPRESS_SAMPLES_MASK`, not `pre + window + post + 1`. -/
theorem suppressor_delay_counterexample :
    js110_sp_initialize.suppress_samples_pre + js110_sp_initialize.suppress_samples_window +
      js110_sp_initialize.suppress_samples_post + 1 = 3 ∧
    js110_sp_run js110_sp_initialize [(0, 0), (0, 0), (0, 0), (0, 0)] =
      [SAMPLE_MISSING, SAMPLE_MISSING, SAMPLE_MISSING, SAMPLE_MISSING] ∧
    (js110_sp_run js110_sp_initialize [(0, 0), (0, 0), (0, 0), (0, 0)]).getD 3 SAMPLE_MISSING ≠
      js110_sp_process_sample js110_sp_initialize.cal 0 0 := by
  refine ⟨rfl, by decide, by decide⟩

/-- C5 (amended): fed one sample at a time from a reset state, the processor
returns `SAMPLE_MISSING` for the first `JS110_SUPPRESS_SAMPLES_MAX - 1` = 31
calls (not `pre + window + post + 1`), and every later call `n` returns the
processed (calibrated) sample of input `n - 31` — a fixed delay of
`JS110_SUPPRESS_SAMPLES_MAX - 1` samples.  No suppression is applied by this
code, so the identity modulo the delay holds for every stream, whether or
not the current range changes. -/
theorem suppressor_warmup_delay (st : js110_sp_s) (hc : st.sample_count = 0)
    (hh : st.head = 0) (hs : st.samples = fun _ => SAMPLE_MISSING)
    (inputs : List (Nat × Nat)) :
    js110_sp_run st inputs =
      List.replicate (min inputs.length (JS110_SUPPRESS_SAMPLES_MAX - 1)) SAMPLE_MISSING ++
        (inputs.take (inputs.length - (JS110_SUPPRESS_SAMPLES_MAX - 1))).map
          (fun uv => js110_sp_process_sample st.cal uv.1 uv.2) := by
  rw [show JS110_SUPPRESS_SAMPLES_MAX - 1 = 31 from rfl]
  induction inputs using List.reverseRecOn with
  | nil => rfl
  | append_singleton xs x ih =>
    rw [js110_sp_run_append, ih]
    obtain ⟨hcnt, hhead, hcal, hsamp⟩ := js110_sp_state_after_spec st hc hh hs xs
    rw [js110_sp_process_fst, hcnt, hhead, hcal]
    simp only [List.length_append, List.length_cons, List.length_nil]
    rw [show SUPPRESS_SAMPLES_MASK = 31 from rfl]
    by_cases h31 : 31 ≤ xs.length + 1
    · rw [if_pos (by omega)]
      by_cases h32 : 32 ≤ xs.length + 1
      · -- steady state: the ring slot read was written 31 calls ago
        rw [show (xs.length % 32 + 1) % 32 = (xs.length + 1) % 32 by omega]
        have hslot_ne : (xs.length + 1) % 32 ≠ xs.length % 32 := by omega
        rw [Function.update_noteq hslot_ne]
        have hs32 : (xs.length + 1) % 32 < 32 := by omega
        have hslt : (xs.length + 1) % 32 < xs.length := by omega
        rw [hsamp _ hs32, if_pos hslt]
        have hidx : xs.length - 1 - ((xs.length - 1 - (xs.length + 1) % 32) % 32) =
            xs.length - 31 := by omega
        rw [hidx]
        have hmin1 : min xs.length 31 = 31 := by omega
        have hmin2 : min (xs.length + 0 + 1) 31 = 31 := by omega
        rw [hmin1, hmin2]
        have htk : (xs ++ [x]).take (xs.length + 0 + 1 - 31) =
            xs.take (xs.length - 31) ++ [xs.getD (xs.length - 31) (0, 0)] := by
          rw [show xs.length + 0 + 1 - 31 = (xs.length - 31) + 1 by omega]
          rw [take_succ_getD (xs ++ [x]) (xs.length - 31)
            (by simp; omega)]
          have e1 : (xs ++ [x]).take (xs.length - 31) = xs.take (xs.length - 31) := by
            rw [List.take_append_of_le_length (by omega)]
          have e2 : (xs ++ [x]).getD (xs.length - 31) (0, 0) =
              xs.getD (xs.length - 31) (0, 0) :=
            List.getD_append _ _ _ _ (by omega)
          rw [e1, e2]
        rw [htk, List.map_append, List.append_assoc]
        rfl
      · -- the 31st call reads the (still missing) slot written by no input
        have hlen : xs.length = 30 := by omega
        rw [show (xs.length % 32 + 1) % 32 = (xs.length + 1) % 32 by omega]
        have hslot_ne : (xs.length + 1) % 32 ≠ xs.length % 32 := by omega
        rw [Function.update_noteq hslot_ne]
        have hs32 : (xs.length + 1) % 32 < 32 := by omega
        rw [hsamp _ hs32, if_neg (by omega)]
        have hmin1 : min xs.length 31 = xs.length := by omega
        have hmin2 : min (xs.length + 0 + 1) 31 = xs.length + 1 := by omega
        rw [hmin1, hmin2]
        rw [show xs.length + 0 + 1 - 31 = 0 by omega,
          show xs.length - 31 = 0 by omega]
        simp [List.replicate_succ']
    · -- warm-up: the call returns SAMPLE_MISSING outright
      rw [if_neg (by omega)]
      have hmin1 : min xs.length 31 = xs.length := by omega
      have hmin2 : min (xs.length + 0 + 1) 31 = xs.length + 1 := by omega
      rw [hmin1, hmin2]
      rw [show xs.length + 0 + 1 - 31 = 0 by omega,
        show xs.length - 31 = 0 by omega]
      simp [List.replicate_succ']

/-- Witness for C5 (amended) at the initialized state with one input. -/
theorem suppressor_warmup_delay_witness :
    js110_sp_run js110_sp_initialize [(0, 0)] =
      List.replicate (min (List.length [((0 : Nat), (0 : Nat))])
          (JS110_SUPPRESS_SAMPLES_MAX - 1)) SAMPLE_MISSING ++
        (List.take (List.length [((0 : Nat), (0 : Nat))] -
            (JS110_SUPPRESS_SAMPLES_MAX - 1)) [((0 : Nat), (0 : Nat))]).map
          (fun uv => js110_sp_process_sample js110_sp_initialize.cal uv.1 uv.2) :=
  suppressor_warmup_delay js110_sp_initialize rfl rfl rfl [(0, 0)]

/-! ### C7 — single memory operation -/

/-- C7: when a new memory command arrives while an operation is in flight
(`mem_hdr.op ≠ 0`), `handle_cmd_mem` first completes the in-flight operation
with `Aborted` — its first emission is the return-code message on the old
request topic with the '#' suffix (and nothing else from the old operation,
since the status is nonzero) — and then processes the new request exactly as
it would from the cleared memory-op state (op, offsets, data buffer, and
topic all cleared, `out_frame_id` untouched). -/
theorem mem_single_operation (st : MemState) (msg_topic topic : List Nat)
    (value : MemMsgValue) (h : st.mem_hdr_op ≠ 0) :
    handle_cmd_mem st msg_topic topic value =
      (MemEmission.return_code_msg (st.mem_topic ++ [JSDRV_TOPIC_SUFFIX_RETURN_CODE])
          JSDRV_ERROR_ABORTED ::
        (handle_cmd_mem
          { st with
            mem_hdr_op := 0
            mem_hdr_region := 0
            mem_hdr_status := 0
            mem_hdr_length := 0
            mem_offset_valid := 0
            mem_offset_sent := 0
            mem_data := none
            mem_topic := [] } msg_topic topic value).1,
       (handle_cmd_mem
          { st with
            mem_hdr_op := 0
            mem_hdr_region := 0
            mem_hdr_status := 0
            mem_hdr_length := 0
            mem_offset_valid := 0
            mem_offset_sent := 0
            mem_data := none
            mem_topic := [] } msg_topic topic value).2) := by
  have h0 : ¬(st.mem_hdr_op = JS220_PORT3_OP_NONE) := by
    rw [show JS220_PORT3_OP_NONE = 0 from rfl]
    exact h
  have hrd : ¬(JSDRV_ERROR_ABORTED = 0 ∧ st.mem_hdr_op = JS220_PORT3_OP_READ_REQ) := by
    intro hx
    exact absurd hx.1 (by decide)
  simp only [handle_cmd_mem, if_pos h, mem_complete, if_neg h0, if_neg hrd,
    List.nil_append]
  simp

/-- Witness for C7: an erase request on region app arriving while a read
operation (op 5) is in flight. -/
theorem mem_single_operation_witness :
    handle_cmd_mem ⟨5, 19, 0, 16, 4, 4, some [1, 2], [117, 47, 48], 9⟩
        [117, 47, 48]
        [104, 47, 109, 101, 109, 47, 99, 47, 97, 112, 112, 47, 33, 101, 114, 97, 115, 101]
        ⟨0, [], 0⟩ =
      (MemEmission.return_code_msg ([117, 47, 48] ++ [JSDRV_TOPIC_SUFFIX_RETURN_CODE])
          JSDRV_ERROR_ABORTED ::
        (handle_cmd_mem ⟨0, 0, 0, 0, 0, 0, none, [], 9⟩
          [117, 47, 48]
          [104, 47, 109, 101, 109, 47, 99, 47, 97, 112, 112, 47, 33, 101, 114, 97, 115, 101]
          ⟨0, [], 0⟩).1,
       (handle_cmd_mem ⟨0, 0, 0, 0, 0, 0, none, [], 9⟩
          [117, 47, 48]
          [104, 47, 109, 101, 109, 47, 99, 47, 97, 112, 112, 47, 33, 101, 114, 97, 115, 101]
          ⟨0, [], 0⟩).2) :=
  mem_single_operation ⟨5, 19, 0, 16, 4, 4, some [1, 2], [117, 47, 48], 9⟩
    [117, 47, 48]
    [104, 47, 109, 101, 109, 47, 99, 47, 97, 112, 112, 47, 33, 101, 114, 97, 115, 101]
    ⟨0, [], 0⟩ (by decide)

end JoulescopeDriver
